import Mathlib

/-!
Shader compilation helpers of `examples/opengl/OpenGL.cpp`.

A shallow embedding of `CompileShader`, `CompileProgram` and `main` from
`examples/opengl/OpenGL.cpp`.  The OpenGL context and the SFML library are external to the
file; they are represented by an oracle (`Driver`, `Env`) that decides every value the
libraries hand back, and by a `World` that is threaded through the code and records what the
code did: the calls it made in order, the text written to `std::cerr`, the object names
handed out and not yet given back, and every indexed access to a `std::vector`.

Modelling choices:

* The names a context hands out may depend on everything that happened before.  The outcome
  of compiling or linking (status, info log and its reported length) is a function of the
  stage kind and the source text, which is how the code and its callers look at it.
* A name is in use from the `glCreate…` call that returned it until the `glDelete…` call
  that names it.  OpenGL itself keeps a deleted shader alive while it is attached to a
  program; what is tracked here is what the caller still has to give back.
* `glCreate…` returns `0` only when it failed.  The code passes the name on without a check,
  and the queries that follow such a failure leave its result variables unset, so statements
  that read the results are made for contexts that never return `0` (`Driver.NonZero`).
* Indexing a vector is recorded, not checked: an access outside the buffer shows up in
  `World.accesses` and the run goes on.  `&v[0]` of an empty vector is taken to be the null
  data pointer of the vector, and streaming a null `char*` into `std::cerr` sets the
  stream's badbit, after which every write to the stream is dropped; this is what the GNU
  C++ library does when its optional assertions are off.
-/

namespace OpenGLExample

/-! Basic types and constants -/

/-- Unsigned object name (`GLuint`); the code only stores, passes and compares names. -/
abbrev GLuint := Nat
/-- Signed integer result of a query (`GLint`); the code only compares it with `0`
or uses it as a length. -/
abbrev GLint := Int
/-- Enumerant (`GLenum`). -/
abbrev GLenum := Nat

/-- Value of `GL_FRAGMENT_SHADER` in the OpenGL headers. -/
def GL_FRAGMENT_SHADER : GLenum := 0x8B30
/-- Value of `GL_VERTEX_SHADER` in the OpenGL headers. -/
def GL_VERTEX_SHADER : GLenum := 0x8B31
/-- Value of `GL_COMPILE_STATUS` in the OpenGL headers. -/
def GL_COMPILE_STATUS : GLenum := 0x8B81
/-- Value of `GL_LINK_STATUS` in the OpenGL headers. -/
def GL_LINK_STATUS : GLenum := 0x8B82
/-- Value of `GL_INFO_LOG_LENGTH` in the OpenGL headers. -/
def GL_INFO_LOG_LENGTH : GLenum := 0x8B84

/-- One call made by the program to OpenGL or SFML, with the arguments the code passes and,
for calls whose result the code reads, the value handed back. -/
inductive Call where
  | glCreateShader (type : GLenum) (ret : GLuint)
  | glShaderSource (shader : GLuint) (source : String)
  | glCompileShader (shader : GLuint)
  | glGetShaderiv (shader : GLuint) (pname : GLenum) (value : GLint)
  | glGetShaderInfoLog (shader : GLuint) (bufSize : Nat)
  | glDeleteShader (shader : GLuint)
  | glCreateProgram (ret : GLuint)
  | glAttachShader (program : GLuint) (shader : GLuint)
  | glBindAttribLocation (program : GLuint) (index : Nat) (name : String)
  | glLinkProgram (program : GLuint)
  | glGetProgramiv (program : GLuint) (pname : GLenum) (value : GLint)
  | glGetProgramInfoLog (program : GLuint) (bufSize : Nat)
  | glDeleteProgram (program : GLuint)
  | glUseProgram (program : GLuint)
  | gl (name : String)
  | createWindow (ok : Bool)
  | loadFromFile (file : String) (ok : Bool)
  | sf (name : String)
  deriving DecidableEq, Repr

/-- What the running program has done so far, as far as the code under study can affect it. -/
structure World where
  /-- Shader names in use: handed out by `glCreateShader` and not yet given back with
  `glDeleteShader` (one entry per creation). -/
  shaders : List GLuint
  /-- Program names in use: handed out by `glCreateProgram` and not yet given back with
  `glDeleteProgram`. -/
  programs : List GLuint
  /-- Every library call made so far, oldest first. -/
  calls : List Call
  /-- The characters written to `std::cerr` so far. -/
  cerr : List Char
  /-- Whether the badbit of `std::cerr` is set; writes to a bad stream are dropped. -/
  cerrBad : Bool
  /-- Every `v[i]` evaluated on a `std::vector` so far, as `(i, v.size())`. -/
  accesses : List (Nat × Nat)
  deriving DecidableEq, Repr

/-- The answers of the OpenGL context.  Names may depend on everything that happened before;
the result of compiling or linking is a function of the stage kind and the source text. -/
structure Driver where
  /-- Name returned by `glCreateShader`. -/
  createShader : World → GLenum → GLuint
  /-- Name returned by `glCreateProgram`. -/
  createProgram : World → GLuint
  /-- `GL_COMPILE_STATUS` of a shader of the given kind compiled from the given source. -/
  compileStatus : GLenum → String → GLint
  /-- `GL_INFO_LOG_LENGTH` of such a shader (OpenGL reports a non-negative length). -/
  shaderInfoLogLength : GLenum → String → Nat
  /-- Info log text that the context keeps for such a shader. -/
  shaderInfoLog : GLenum → String → List Char
  /-- `GL_LINK_STATUS` of a program linked from the two stage sources. -/
  linkStatus : String → String → GLint
  /-- `GL_INFO_LOG_LENGTH` of such a program. -/
  programInfoLogLength : String → String → Nat
  /-- Info log text that the context keeps for such a program. -/
  programInfoLog : String → String → List Char

/-- Append one call to the record. -/
def World.call (w : World) (c : Call) : World :=
  { w with calls := w.calls ++ [c] }

/-- Record the evaluation of `v[i]` on a vector of the given size. -/
def World.index (w : World) (i size : Nat) : World :=
  { w with accesses := w.accesses ++ [(i, size)] }

/-! The OpenGL calls used by the two helpers -/

/-- `glCreateShader(type)`: the context picks the name; `0` means that no object was
created. -/
def glCreateShader (d : Driver) (type : GLenum) (w : World) : GLuint × World :=
  let h := d.createShader w type
  (h, { w with shaders := if h = 0 then w.shaders else h :: w.shaders,
               calls := w.calls ++ [Call.glCreateShader type h] })

/-- `glShaderSource(shader, 1, sourceArray, NULL)`. -/
def glShaderSource (shader : GLuint) (source : String) (w : World) : World :=
  w.call (Call.glShaderSource shader source)

/-- `glCompileShader(shader)`. -/
def glCompileShader (shader : GLuint) (w : World) : World :=
  w.call (Call.glCompileShader shader)

/-- `glGetShaderiv(shader, pname, &value)` for a shader whose kind and source were set by the
preceding `glCreateShader` and `glShaderSource` calls. -/
def glGetShaderiv (d : Driver) (type : GLenum) (source : String) (shader : GLuint)
    (pname : GLenum) (w : World) : GLint × World :=
  let value : GLint :=
    if pname = GL_COMPILE_STATUS then d.compileStatus type source
    else if pname = GL_INFO_LOG_LENGTH then (d.shaderInfoLogLength type source : Int)
    else 0
  (value, w.call (Call.glGetShaderiv shader pname value))

/-- What `glGet…InfoLog(obj, bufSize, NULL, buf)` leaves in the buffer: nothing is written
when `bufSize` is `0`; otherwise as many log characters as fit in `bufSize - 1`, followed by a
terminating NUL. -/
def writeInfoLog (log : List Char) (bufSize : Nat) (buf : List Char) : List Char :=
  if bufSize = 0 then buf
  else
    let k := min (bufSize - 1) log.length
    log.take k ++ [Char.ofNat 0] ++ buf.drop (k + 1)

/-- `glGetShaderInfoLog(shader, bufSize, NULL, buf)`. -/
def glGetShaderInfoLog (d : Driver) (type : GLenum) (source : String) (shader : GLuint)
    (bufSize : Nat) (buf : List Char) (w : World) : List Char × World :=
  (writeInfoLog (d.shaderInfoLog type source) bufSize buf,
   w.call (Call.glGetShaderInfoLog shader bufSize))

/-- `glDeleteShader(shader)`: a value of `0` is silently ignored by OpenGL. -/
def glDeleteShader (shader : GLuint) (w : World) : World :=
  { w with shaders := if shader = 0 then w.shaders else w.shaders.erase shader,
           calls := w.calls ++ [Call.glDeleteShader shader] }

/-- `glCreateProgram()`. -/
def glCreateProgram (d : Driver) (w : World) : GLuint × World :=
  let p := d.createProgram w
  (p, { w with programs := if p = 0 then w.programs else p :: w.programs,
               calls := w.calls ++ [Call.glCreateProgram p] })

/-- `glAttachShader(program, shader)`. -/
def glAttachShader (program shader : GLuint) (w : World) : World :=
  w.call (Call.glAttachShader program shader)

/-- `glLinkProgram(program)`. -/
def glLinkProgram (program : GLuint) (w : World) : World :=
  w.call (Call.glLinkProgram program)

/-- `glGetProgramiv(program, pname, &value)` for a program to which shaders compiled from
the two sources were attached. -/
def glGetProgramiv (d : Driver) (vsSource fsSource : String) (program : GLuint)
    (pname : GLenum) (w : World) : GLint × World :=
  let value : GLint :=
    if pname = GL_LINK_STATUS then d.linkStatus vsSource fsSource
    else if pname = GL_INFO_LOG_LENGTH then (d.programInfoLogLength vsSource fsSource : Int)
    else 0
  (value, w.call (Call.glGetProgramiv program pname value))

/-- `glGetProgramInfoLog(program, bufSize, NULL, buf)`. -/
def glGetProgramInfoLog (d : Driver) (vsSource fsSource : String) (program : GLuint)
    (bufSize : Nat) (buf : List Char) (w : World) : List Char × World :=
  (writeInfoLog (d.programInfoLog vsSource fsSource) bufSize buf,
   w.call (Call.glGetProgramInfoLog program bufSize))

/-- `glDeleteProgram(program)`: a value of `0` is silently ignored by OpenGL. -/
def glDeleteProgram (program : GLuint) (w : World) : World :=
  { w with programs := if program = 0 then w.programs else w.programs.erase program,
           calls := w.calls ++ [Call.glDeleteProgram program] }

/-! C++ library pieces -/

/-- `std::vector<GLchar> v(n)`: `n` value-initialised characters.  The length comes from a
`GLint`; the lengths OpenGL reports are non-negative. -/
def vector (n : GLint) : List Char :=
  List.replicate n.toNat (Char.ofNat 0)

/-- The C string that starts at the beginning of a non-empty buffer: the characters before
the first NUL. -/
def cString (buf : List Char) : List Char :=
  buf.takeWhile (fun c => c != Char.ofNat 0)

/-- `std::cerr << text` for a string literal or another valid C string: appended unless the
stream is bad. -/
def World.print (w : World) (text : List Char) : World :=
  { w with cerr := if w.cerrBad then w.cerr else w.cerr ++ text }

/-- `std::cerr << &buf[0]` for a vector `buf`: the C string in the buffer is appended unless
the stream is bad; for an empty vector the pointer is null, nothing is appended and the
stream becomes bad. -/
def World.printCString (w : World) (buf : List Char) : World :=
  { w with cerr := if w.cerrBad || buf.isEmpty then w.cerr else w.cerr ++ cString buf,
           cerrBad := w.cerrBad || buf.isEmpty }

/-! The two helpers -/

/-- `GLuint CompileShader(GLenum type, const std::string &source)`. -/
def CompileShader (d : Driver) (type : GLenum) (source : String) (w : World) :
    GLuint × World :=
  let (shader, w) := glCreateShader d type w
  let w := glShaderSource shader source w
  let w := glCompileShader shader w
  let (compileResult, w) := glGetShaderiv d type source shader GL_COMPILE_STATUS w
  if compileResult = 0 then
    let (infoLogLength, w) := glGetShaderiv d type source shader GL_INFO_LOG_LENGTH w
    let infoLog := vector infoLogLength
    -- `&infoLog[0]` as the destination of the log
    let w := w.index 0 infoLog.length
    let (infoLog, w) := glGetShaderInfoLog d type source shader infoLog.length infoLog w
    -- `std::cerr << "shader compilation failed: " << &infoLog[0]`
    let w := w.index 0 infoLog.length
    let w := (w.print "shader compilation failed: ".toList).printCString infoLog
    let w := glDeleteShader shader w
    (0, w)
  else
    (shader, w)

/-- `GLuint CompileProgram(const std::string &vsSource, const std::string &fsSource)`. -/
def CompileProgram (d : Driver) (vsSource fsSource : String) (w : World) : GLuint × World :=
  let (program, w) := glCreateProgram d w
  let (vs, w) := CompileShader d GL_VERTEX_SHADER vsSource w
  let (fs, w) := CompileShader d GL_FRAGMENT_SHADER fsSource w
  if vs = 0 ∨ fs = 0 then
    let w := glDeleteShader fs w
    let w := glDeleteShader vs w
    let w := glDeleteProgram program w
    (0, w)
  else
    let w := glAttachShader program vs w
    let w := glDeleteShader vs w
    let w := glAttachShader program fs w
    let w := glDeleteShader fs w
    let w := glLinkProgram program w
    let (linkStatus, w) := glGetProgramiv d vsSource fsSource program GL_LINK_STATUS w
    if linkStatus = 0 then
      let (infoLogLength, w) :=
        glGetProgramiv d vsSource fsSource program GL_INFO_LOG_LENGTH w
      let infoLog := vector infoLogLength
      let w := w.index 0 infoLog.length
      let (infoLog, w) :=
        glGetProgramInfoLog d vsSource fsSource program infoLog.length infoLog w
      let w := w.index 0 infoLog.length
      let w := (w.print "program link failed: ".toList).printCString infoLog
      let w := glDeleteProgram program w
      (0, w)
    else
      (program, w)

/-- The empty starting point: nothing created, called or printed yet, and `std::cerr` in
good state. -/
def World.init : World :=
  { shaders := [], programs := [], calls := [], cerr := [], cerrBad := false,
    accesses := [] }

/-- The calls made between two points of a run. -/
def issued (before after : World) : List Call :=
  after.calls.drop before.calls.length


/-! The entry point -/

/-- Value of `EXIT_SUCCESS` in `<cstdlib>`. -/
def EXIT_SUCCESS : Int := 0
/-- Value of `EXIT_FAILURE` in `<cstdlib>`. -/
def EXIT_FAILURE : Int := 1

/-- Index of the position attribute (`#define VERTEX_ARRAY 0`). -/
def VERTEX_ARRAY : Nat := 0
/-- Index of the texture coordinate attribute (`#define TEXCOORD_ARRAY 1`). -/
def TEXCOORD_ARRAY : Nat := 1

/-- Keys, as far as `main` tells them apart. -/
inductive Key where
  | escape
  | other
  deriving DecidableEq, Repr

/-- Window events, as far as `main` tells them apart. -/
inductive Event where
  | closed
  | keyPressed (code : Key)
  | resized
  | other
  deriving DecidableEq, Repr

/-- The answers of SFML and of the machine outside OpenGL. -/
structure Env where
  /-- Whether the constructor of `sf::RenderWindow` managed to create the window. -/
  windowCreated : Bool
  /-- Whether `loadFromFile` succeeds on the named file. -/
  loadFromFile : String → Bool
  /-- The events waiting when frame `n` of the render loop starts. -/
  events : Nat → List Event
  /-- The characters up to the first NUL that a read finds at an array made by
  `new char[0]`, which has no element of its own. -/
  heapText : List Char

/-- First vertex source of `main`, as `SHADER_SOURCE` stringifies it. -/
def vsPlain : String :=
  "attribute vec4 vPosition; void main() \x7b gl_Position = vPosition; \x7d"

/-- First fragment source of `main`. -/
def fsPlain : String :=
  "precision mediump float; void main() \x7b gl_FragColor = vec4(0.5, 0.0, 0.5, 1.0); \x7d"

/-- Fragment source of the cube program. -/
def fsCube : String :=
  "uniform sampler2D sampler2d; varying mediump vec2 myTexCoord; void main (void) " ++
  "\x7b gl_FragColor = texture2D(sampler2d,myTexCoord); \x7d"

/-- Vertex source of the cube program. -/
def vsCube : String :=
  "attribute highp vec4 myVertex; attribute mediump vec4 myUV; " ++
  "uniform mediump mat4 myPMVMatrix; varying mediump vec2 myTexCoord; void main(void) " ++
  "\x7b gl_Position = myPMVMatrix * myVertex; myTexCoord = myUV.st; \x7d"

/-- Make several calls in a row. -/
def World.callAll (w : World) (cs : List Call) : World :=
  { w with calls := w.calls ++ cs }

/-- The inner loop `while (window.pollEvent(event))` of one frame: the waiting events are
handed out one by one while the window is open; returns whether the window is still open. -/
def pollEvents : List Event → Bool → World → Bool × World
  | [], isOpen, w => (isOpen, w.call (Call.sf "pollEvent"))
  | e :: rest, isOpen, w =>
    let w := w.call (Call.sf "pollEvent")
    if isOpen then
      -- `if (event.type == sf::Event::Closed) window.close();`
      let (isOpen, w) :=
        if e = Event.closed then (false, w.call (Call.sf "close")) else (isOpen, w)
      -- `if (KeyPressed && code == Escape) window.close();`
      let (isOpen, w) :=
        if e = Event.keyPressed Key.escape then (false, w.call (Call.sf "close"))
        else (isOpen, w)
      -- `if (event.type == sf::Event::Resized) glViewport(...)`
      let w := if e = Event.resized then w.call (Call.gl "glViewport") else w
      pollEvents rest isOpen w
    else
      (isOpen, w)

/-- The drawing part of one frame, after the events were handled. -/
def drawFrame (mProgramCube : GLuint) (w : World) : World :=
  w.callAll
    [Call.gl "glClearColor", Call.gl "glClear",
     Call.sf "Mouse::getPosition", Call.sf "getSize",
     Call.sf "Mouse::getPosition", Call.sf "getSize",
     Call.glUseProgram mProgramCube,
     Call.gl "glGetUniformLocation", Call.gl "glUniformMatrix4fv",
     Call.gl "glBindTexture",
     Call.gl "glEnableVertexAttribArray", Call.gl "glVertexAttribPointer",
     Call.gl "glEnableVertexAttribArray", Call.gl "glVertexAttribPointer",
     Call.gl "glDrawArrays",
     Call.gl "glBindBuffer",
     Call.gl "glEnableVertexAttribArray", Call.gl "glVertexAttribPointer",
     Call.gl "glEnableVertexAttribArray", Call.gl "glVertexAttribPointer",
     Call.gl "glDrawArrays",
     Call.gl "glBindBuffer",
     Call.sf "display"]

/-- The render loop `while (window.isOpen())`, run for at most `fuel` frames starting with
frame `n`; `none` when the window is still open after that many frames. -/
def renderLoop (env : Env) (mProgramCube : GLuint) : Nat → Nat → Bool → World → Option World
  | fuel, n, isOpen, w =>
    let w := w.call (Call.sf "isOpen")
    if isOpen then
      match fuel with
      | 0 => none
      | fuel + 1 =>
        let (isOpen, w) := pollEvents (env.events n) isOpen w
        let w := drawFrame mProgramCube w
        renderLoop env mProgramCube fuel (n + 1) isOpen w
    else
      some w

/-- `int main()`: the exit status and the final record, or `none` when the render loop is
still running after `fuel` frames.  Construction and configuration of local SFML objects
(sprite, text, clock) and the unused texture pattern are left out; every other library call
is recorded. -/
def main (d : Driver) (env : Env) (fuel : Nat) : Option (Int × World) :=
  let w := World.init
  -- Create the main window
  let w := w.call (Call.createWindow env.windowCreated)
  let isOpen := env.windowCreated
  let w := w.call (Call.sf "setVerticalSyncEnabled")
  -- Create a sprite for the background
  let ok := env.loadFromFile "resources/background.jpg"
  let w := w.call (Call.loadFromFile "resources/background.jpg" ok)
  if !ok then some (EXIT_FAILURE, w) else
  -- Create some text to draw on top of our OpenGL object
  let ok := env.loadFromFile "resources/sansation.ttf"
  let w := w.call (Call.loadFromFile "resources/sansation.ttf" ok)
  if !ok then some (EXIT_FAILURE, w) else
  let w := w.call (Call.sf "setActive")
  let w := w.call (Call.gl "glGetString")
  let (_mProgram, w) := CompileProgram d vsPlain fsPlain w
  let (mProgramCube, w) := glCreateProgram d w
  let (m_uiVertexShader, w) := CompileShader d GL_VERTEX_SHADER vsCube w
  let (m_uiFragShader, w) := CompileShader d GL_FRAGMENT_SHADER fsCube w
  -- Attach the fragment and vertex shaders to it
  let w := glAttachShader mProgramCube m_uiFragShader w
  let w := glAttachShader mProgramCube m_uiVertexShader w
  let w := w.call (Call.glBindAttribLocation mProgramCube VERTEX_ARRAY "myVertex")
  let w := w.call (Call.glBindAttribLocation mProgramCube TEXCOORD_ARRAY "myUV")
  let w := glLinkProgram mProgramCube w
  let (bLinked, w) := glGetProgramiv d vsCube fsCube mProgramCube GL_LINK_STATUS w
  if bLinked = 0 then
    let (i32InfoLogLength, w) :=
      glGetProgramiv d vsCube fsCube mProgramCube GL_INFO_LOG_LENGTH w
    -- `new char[i32InfoLogLength]`: not initialised; when the length is positive the log
    -- and its terminator are written over the front of it
    let pszInfoLog := vector i32InfoLogLength
    let (pszInfoLog, w) :=
      glGetProgramInfoLog d vsCube fsCube mProgramCube i32InfoLogLength.toNat pszInfoLog w
    -- `strcat(pszMsg, pszInfoLog)` reads the array from its first element on
    let w := w.index 0 pszInfoLog.length
    let logText := if pszInfoLog.isEmpty then env.heapText else cString pszInfoLog
    let pszMsg := "Failed to link program: ".toList ++ logText
    let w := (w.print "program link failed: ".toList).print pszMsg
    let w := glDeleteProgram mProgramCube w
    some (0, w)
  else
  let w := w.call (Call.glUseProgram mProgramCube)
  let w := w.callAll [Call.gl "glGetUniformLocation", Call.gl "glUniform1i"]
  let ok := env.loadFromFile "resources/texture.jpg"
  let w := w.call (Call.loadFromFile "resources/texture.jpg" ok)
  if !ok then some (EXIT_FAILURE, w) else
  let w := w.callAll
    [Call.gl "glGenTextures", Call.gl "glBindTexture", Call.sf "getSize", Call.sf "getSize",
     Call.sf "getPixelsPtr", Call.gl "glTexImage2D",
     Call.gl "glTexParameteri", Call.gl "glTexParameteri",
     -- Enable Z-buffer read and write
     Call.gl "glEnable", Call.gl "glDepthMask", Call.gl "glEnable",
     -- Configure the viewport (the same size as the window)
     Call.sf "getSize", Call.sf "getSize", Call.gl "glViewport",
     Call.sf "getSize", Call.sf "getSize",
     -- Bind the texture
     Call.gl "glEnable",
     Call.gl "glGenBuffers", Call.gl "glBindBuffer", Call.gl "glBufferData",
     Call.gl "glBindBuffer", Call.gl "glEnable"]
  -- Start game loop
  match renderLoop env mProgramCube fuel 0 isOpen w with
  | none => none
  | some w =>
    -- Don't forget to destroy our texture
    let w := w.call (Call.gl "glDeleteTextures")
    some (EXIT_SUCCESS, w)


/-! Vocabulary of the statements -/

/-- The context never hands out the name `0`: every `glCreateShader` and `glCreateProgram`
call succeeds. -/
def Driver.NonZero (d : Driver) : Prop :=
  (∀ w type, d.createShader w type ≠ 0) ∧ ∀ w, d.createProgram w ≠ 0

/-- The context never hands out a program name that is still in use. -/
def Driver.FreshPrograms (d : Driver) : Prop :=
  ∀ w, d.createProgram w ∉ w.programs

/-- Name handed out for the vertex shader in a `CompileProgram` run started in `w`. -/
def vertexName (d : Driver) (w : World) : GLuint :=
  d.createShader (glCreateProgram d w).2 GL_VERTEX_SHADER

/-- Name handed out for the fragment shader in a `CompileProgram` run started in `w`. -/
def fragmentName (d : Driver) (vsSource : String) (w : World) : GLuint :=
  d.createShader (CompileShader d GL_VERTEX_SHADER vsSource (glCreateProgram d w).2).2
    GL_FRAGMENT_SHADER

/-- The same context, except that the three names requested by one `CompileProgram` run are
fixed in advance. -/
def Driver.withNames (d : Driver) (p h1 h2 : GLuint) : Driver :=
  { d with
    createProgram := fun _ => p
    createShader := fun _ type => if type = GL_VERTEX_SHADER then h1 else h2 }

/-- Calls made by a `CompileShader` run whose compile status is not `0`. -/
def shaderCallsOk (d : Driver) (type : GLenum) (source : String) (h : GLuint) : List Call :=
  [Call.glCreateShader type h, Call.glShaderSource h source, Call.glCompileShader h,
   Call.glGetShaderiv h GL_COMPILE_STATUS (d.compileStatus type source)]

/-- Calls made by a `CompileShader` run whose compile status is `0`. -/
def shaderCallsFail (d : Driver) (type : GLenum) (source : String) (h : GLuint) : List Call :=
  [Call.glCreateShader type h, Call.glShaderSource h source, Call.glCompileShader h,
   Call.glGetShaderiv h GL_COMPILE_STATUS 0,
   Call.glGetShaderiv h GL_INFO_LOG_LENGTH (d.shaderInfoLogLength type source : Int),
   Call.glGetShaderInfoLog h (d.shaderInfoLogLength type source),
   Call.glDeleteShader h]

/-- Calls made after both stages compiled, up to and including the link status query. -/
def linkCalls (d : Driver) (vsSource fsSource : String) (p h1 h2 : GLuint) : List Call :=
  [Call.glAttachShader p h1, Call.glDeleteShader h1, Call.glAttachShader p h2,
   Call.glDeleteShader h2, Call.glLinkProgram p,
   Call.glGetProgramiv p GL_LINK_STATUS (d.linkStatus vsSource fsSource)]

/-- The buffer `infoLog` of `CompileShader` after `glGetShaderInfoLog` has filled it. -/
def shaderBuffer (d : Driver) (type : GLenum) (source : String) : List Char :=
  writeInfoLog (d.shaderInfoLog type source) (d.shaderInfoLogLength type source)
    (vector (d.shaderInfoLogLength type source : Int))

/-- The buffer `infoLog` of `CompileProgram` after `glGetProgramInfoLog` has filled it. -/
def programBuffer (d : Driver) (vsSource fsSource : String) : List Char :=
  writeInfoLog (d.programInfoLog vsSource fsSource)
    (d.programInfoLogLength vsSource fsSource)
    (vector (d.programInfoLogLength vsSource fsSource : Int))

/-- The error stream, as its text and its bad flag, after `std::cerr << pre << &buf[0]`. -/
def streamReport (s : List Char × Bool) (pre buf : List Char) : List Char × Bool :=
  if s.2 then s
  else if buf.isEmpty then (s.1 ++ pre, true)
  else (s.1 ++ (pre ++ cString buf), false)

/-- The fixed text that starts the message of `CompileShader`. -/
def shaderPrefix : List Char := "shader compilation failed: ".toList

/-- The fixed text that starts the message of `CompileProgram`. -/
def programPrefix : List Char := "program link failed: ".toList

/-- Every failure the context reports comes with a positive info-log length. -/
def Driver.LogsPresent (d : Driver) : Prop :=
  (∀ type source, d.compileStatus type source = 0 → 0 < d.shaderInfoLogLength type source) ∧
  ∀ vsSource fsSource, d.linkStatus vsSource fsSource = 0 →
    0 < d.programInfoLogLength vsSource fsSource

/-- Text of the shader log as the code retrieves and prints it. -/
def shaderLogText (d : Driver) (type : GLenum) (source : String) : List Char :=
  cString (writeInfoLog (d.shaderInfoLog type source) (d.shaderInfoLogLength type source)
    (vector (d.shaderInfoLogLength type source : Int)))

/-- Text of the program log as the code retrieves and prints it. -/
def programLogText (d : Driver) (vsSource fsSource : String) : List Char :=
  cString (writeInfoLog (d.programInfoLog vsSource fsSource)
    (d.programInfoLogLength vsSource fsSource)
    (vector (d.programInfoLogLength vsSource fsSource : Int)))

/-- Message printed by `CompileShader` when the compile status is `0`. -/
def shaderMessage (d : Driver) (type : GLenum) (source : String) : List Char :=
  "shader compilation failed: ".toList ++ shaderLogText d type source

/-- Message printed by `CompileProgram` when the link status is `0`. -/
def programMessage (d : Driver) (vsSource fsSource : String) : List Char :=
  "program link failed: ".toList ++ programLogText d vsSource fsSource

/-- Everything `CompileProgram` prints for the given sources when the context hands out
non-zero names: the message of each stage that fails to compile, or the link message when
both stages compile and the link fails. -/
def programDiagnostics (d : Driver) (vsSource fsSource : String) : List Char :=
  (if d.compileStatus GL_VERTEX_SHADER vsSource = 0
    then shaderMessage d GL_VERTEX_SHADER vsSource else []) ++
  (if d.compileStatus GL_FRAGMENT_SHADER fsSource = 0
    then shaderMessage d GL_FRAGMENT_SHADER fsSource else []) ++
  (if d.compileStatus GL_VERTEX_SHADER vsSource ≠ 0 ∧
      d.compileStatus GL_FRAGMENT_SHADER fsSource ≠ 0 ∧ d.linkStatus vsSource fsSource = 0
    then programMessage d vsSource fsSource else [])

/-- The two accesses `&infoLog[0]` of a failure path whose buffer has `n` elements. -/
def logAccesses (n : Nat) : List (Nat × Nat) := [(0, n), (0, n)]

/-- An index is within the bounds of its vector. -/
def InBounds (a : Nat × Nat) : Prop := a.1 < a.2

/-- Whether a call goes to OpenGL. -/
def Call.isGL : Call → Bool
  | Call.createWindow _ => false
  | Call.loadFromFile _ _ => false
  | Call.sf _ => false
  | _ => true

/-- Whether a call is `glCreateShader`. -/
def Call.isCreateShader : Call → Bool
  | Call.glCreateShader _ _ => true
  | _ => false

/-- Whether a call is a `glCreateShader` that returned the name `h`. -/
def Call.createsShader (h : GLuint) : Call → Bool
  | Call.glCreateShader _ ret => ret == h
  | _ => false

/-- Whether a call is `glDeleteProgram`. -/
def Call.isDeleteProgram : Call → Bool
  | Call.glDeleteProgram _ => true
  | _ => false

/-- Whether a call is one of `glAttachShader`, `glDeleteShader`, `glLinkProgram`,
`glDeleteProgram`. -/
def Call.isAttachDeleteLink : Call → Bool
  | Call.glAttachShader _ _ => true
  | Call.glDeleteShader _ => true
  | Call.glLinkProgram _ => true
  | Call.glDeleteProgram _ => true
  | _ => false

/-- The run ended in `return EXIT_FAILURE` right after the named file failed to load, and
the condition of the render loop was never evaluated. -/
def EarlyFailure (r : Option (Int × World)) (file : String) : Prop :=
  ∃ w, r = some (EXIT_FAILURE, w) ∧
    w.calls.getLast? = some (Call.loadFromFile file false) ∧
    Call.sf "isOpen" ∉ w.calls

/-! Sample inputs -/

/-- A vertex source that compiles. -/
def vsGood : String := "void main()\x7bgl_Position=vec4(0);\x7d"

/-- A fragment source that compiles. -/
def fsGood : String := "void main()\x7bgl_FragColor=vec4(1);\x7d"

/-- A fragment source with a syntax error. -/
def fsBad : String := "void main()\x7bgl_FragColor=;\x7d"

/-- A fragment source that compiles and reads a varying no vertex stage writes. -/
def fsUnmatched : String := "varying vec4 c;void main()\x7bgl_FragColor=c;\x7d"

/-- A sample context: names are one more than the largest name in use, a source fails to
compile when it is empty or is `fsBad`, and linking fails when the fragment source is
`fsUnmatched`. -/
def sampleDriver : Driver where
  createShader := fun w _ => w.shaders.foldr max 0 + 1
  createProgram := fun w => w.programs.foldr max 0 + 1
  compileStatus := fun _ src => if src = "" ∨ src = fsBad then 0 else 1
  shaderInfoLogLength := fun _ _ => 6
  shaderInfoLog := fun _ _ => "error".toList
  linkStatus := fun _ fs => if fs = fsUnmatched then 0 else 1
  programInfoLogLength := fun _ _ => 5
  programInfoLog := fun _ _ => "link".toList

/-- A context that rejects every shader and keeps no info log: it reports
`GL_INFO_LOG_LENGTH` as `0`. -/
def silentDriver : Driver where
  createShader := fun w _ => w.shaders.foldr max 0 + 1
  createProgram := fun w => w.programs.foldr max 0 + 1
  compileStatus := fun _ _ => 0
  shaderInfoLogLength := fun _ _ => 0
  shaderInfoLog := fun _ _ => []
  linkStatus := fun _ _ => 0
  programInfoLogLength := fun _ _ => 0
  programInfoLog := fun _ _ => []

/-- A context that compiles every shader and fails every link without an info log. -/
def silentLinkDriver : Driver where
  createShader := fun w _ => w.shaders.foldr max 0 + 1
  createProgram := fun w => w.programs.foldr max 0 + 1
  compileStatus := fun _ _ => 1
  shaderInfoLogLength := fun _ _ => 0
  shaderInfoLog := fun _ _ => []
  linkStatus := fun _ _ => 0
  programInfoLogLength := fun _ _ => 0
  programInfoLog := fun _ _ => []

/-- A context whose `glCreateShader` fails (it hands out `0`) and whose answers to the
status queries are not `0`. -/
def zeroNameDriver : Driver where
  createShader := fun _ _ => 0
  createProgram := fun w => w.programs.foldr max 0 + 1
  compileStatus := fun _ _ => 1
  shaderInfoLogLength := fun _ _ => 6
  shaderInfoLog := fun _ _ => "error".toList
  linkStatus := fun _ _ => 1
  programInfoLogLength := fun _ _ => 5
  programInfoLog := fun _ _ => "link".toList

/-- A context that compiles and links everything. -/
def okDriver : Driver where
  createShader := fun w _ => w.shaders.foldr max 0 + 1
  createProgram := fun w => w.programs.foldr max 0 + 1
  compileStatus := fun _ _ => 1
  shaderInfoLogLength := fun _ _ => 0
  shaderInfoLog := fun _ _ => []
  linkStatus := fun _ _ => 1
  programInfoLogLength := fun _ _ => 0
  programInfoLog := fun _ _ => []

/-- An environment in which the window cannot be created and every file loads. -/
def noWindowEnv : Env where
  windowCreated := false
  loadFromFile := fun _ => true
  events := fun _ => []
  heapText := []

/-- An environment in which only `resources/background.jpg` is missing. -/
def noBackgroundEnv : Env where
  windowCreated := true
  loadFromFile := fun file => !(file == "resources/background.jpg")
  events := fun _ => [Event.closed]
  heapText := []

/-- An environment in which only `resources/sansation.ttf` is missing. -/
def noFontEnv : Env where
  windowCreated := true
  loadFromFile := fun file => !(file == "resources/sansation.ttf")
  events := fun _ => [Event.closed]
  heapText := []

/-- An environment in which only `resources/texture.jpg` is missing. -/
def noTextureEnv : Env where
  windowCreated := true
  loadFromFile := fun file => !(file == "resources/texture.jpg")
  events := fun _ => [Event.closed]
  heapText := []

/-! Helper lemmas -/

theorem vector_length (n : Nat) : (vector (n : Int)).length = n := by
  simp [vector]

theorem writeInfoLog_length (log : List Char) (n : Nat) (buf : List Char)
    (hb : buf.length = n) : (writeInfoLog log n buf).length = n := by
  unfold writeInfoLog
  split
  · exact hb
  · simp only [List.length_append, List.length_take, List.length_drop, List.length_cons,
      List.length_nil]
    omega

theorem GL_INFO_LOG_LENGTH_ne : GL_INFO_LOG_LENGTH ≠ GL_COMPILE_STATUS := by decide

theorem GL_INFO_LOG_LENGTH_ne_link : GL_INFO_LOG_LENGTH ≠ GL_LINK_STATUS := by decide

theorem le_foldr_max (l : List Nat) (x : Nat) (hx : x ∈ l) : x ≤ l.foldr max 0 := by
  induction l with
  | nil => cases hx
  | cons a l ih =>
    simp only [List.foldr_cons]
    rcases List.mem_cons.mp hx with h | h
    · subst h
      exact Nat.le_max_left _ _
    · exact Nat.le_trans (ih h) (Nat.le_max_right _ _)

theorem sampleDriver_nonZero : sampleDriver.NonZero := by
  constructor
  · intro w type
    simp [sampleDriver]
  · intro w
    simp [sampleDriver]

theorem sampleDriver_logsPresent : sampleDriver.LogsPresent := by
  constructor
  · intro type source _
    simp [sampleDriver]
  · intro vsSource fsSource _
    simp [sampleDriver]

theorem sampleDriver_fresh : sampleDriver.FreshPrograms := by
  intro w hmem
  have := le_foldr_max w.programs _ hmem
  simp [sampleDriver] at this

theorem takeWhile_append_stop (p : Char → Bool) (l r : List Char) (a : Char)
    (hl : ∀ c ∈ l, p c = true) (ha : p a = false) :
    (l ++ a :: r).takeWhile p = l := by
  induction l with
  | nil => simp [List.takeWhile, ha]
  | cons x l ih =>
    have hx : p x = true := hl x (List.mem_cons_self _ _)
    have hrest : ∀ c ∈ l, p c = true := fun c hc => hl c (List.mem_cons_of_mem _ hc)
    simp [List.takeWhile, hx, ih hrest]

/-- When the reported length leaves room for the whole log and its terminator, the text the
code prints is the whole log. -/
theorem cString_writeInfoLog (log : List Char) (n : Nat) (buf : List Char)
    (hnul : ∀ c ∈ log, c ≠ Char.ofNat 0) (hlen : log.length < n) :
    cString (writeInfoLog log n buf) = log := by
  have hn : n ≠ 0 := by omega
  have hk : min (n - 1) log.length = log.length := by omega
  simp only [writeInfoLog, hn, if_false, hk, List.take_length, cString, List.append_assoc,
    List.singleton_append]
  apply takeWhile_append_stop
  · intro c hc
    simpa using hnul c hc
  · simp

theorem shaderBuffer_length (d : Driver) (type : GLenum) (source : String) :
    (shaderBuffer d type source).length = d.shaderInfoLogLength type source :=
  writeInfoLog_length _ _ _ (vector_length _)

theorem programBuffer_length (d : Driver) (vsSource fsSource : String) :
    (programBuffer d vsSource fsSource).length = d.programInfoLogLength vsSource fsSource :=
  writeInfoLog_length _ _ _ (vector_length _)

/-- The two stream writes of a failure path, in terms of `streamReport`. -/
theorem print_printCString (w : World) (pre buf : List Char) :
    (w.print pre).printCString buf =
      { w with cerr := (streamReport (w.cerr, w.cerrBad) pre buf).1,
               cerrBad := (streamReport (w.cerr, w.cerrBad) pre buf).2 } := by
  cases hb : w.cerrBad <;> cases he : buf.isEmpty <;>
    simp [World.print, World.printCString, streamReport, hb, he]

/-- On a good stream and with a non-empty buffer the whole message is appended and the
stream stays good. -/
theorem streamReport_good (cerr pre buf : List Char) (hbuf : 0 < buf.length) :
    streamReport (cerr, false) pre buf = (cerr ++ (pre ++ cString buf), false) := by
  have he : buf.isEmpty = false := by
    cases buf with
    | nil => simp at hbuf
    | cons a l => rfl
  simp [streamReport, he]

/-- Result of `CompileShader` when the compile status is `0`. -/
theorem CompileShader_fail (d : Driver) (type : GLenum) (source : String) (w : World)
    (hs : d.compileStatus type source = 0) :
    CompileShader d type source w =
      (0, { shaders := w.shaders, programs := w.programs,
            calls := w.calls ++ shaderCallsFail d type source (d.createShader w type),
            cerr := (streamReport (w.cerr, w.cerrBad) shaderPrefix
              (shaderBuffer d type source)).1,
            cerrBad := (streamReport (w.cerr, w.cerrBad) shaderPrefix
              (shaderBuffer d type source)).2,
            accesses := w.accesses ++
              [(0, d.shaderInfoLogLength type source),
               (0, d.shaderInfoLogLength type source)] }) := by
  simp only [CompileShader, glCreateShader, glShaderSource, glCompileShader, glGetShaderiv,
    glGetShaderInfoLog, glDeleteShader, World.call, World.index, print_printCString, hs,
    if_true, GL_INFO_LOG_LENGTH_ne, if_false, vector_length, writeInfoLog_length,
    shaderCallsFail, shaderBuffer, shaderPrefix]
  by_cases h0 : d.createShader w type = 0
  · simp [h0]
  · simp [h0]

/-- Result of `CompileShader` when the compile status is not `0`. -/
theorem CompileShader_ok (d : Driver) (type : GLenum) (source : String) (w : World)
    (hs : d.compileStatus type source ≠ 0) :
    CompileShader d type source w =
      (d.createShader w type,
        { shaders := if d.createShader w type = 0 then w.shaders
                     else d.createShader w type :: w.shaders,
          programs := w.programs,
          calls := w.calls ++ shaderCallsOk d type source (d.createShader w type),
          cerr := w.cerr, cerrBad := w.cerrBad, accesses := w.accesses }) := by
  simp [CompileShader, glCreateShader, glShaderSource, glCompileShader, glGetShaderiv,
    World.call, hs, shaderCallsOk]

theorem CompileShader_congr (d e : Driver) (type : GLenum) (source : String) (w : World)
    (hname : e.createShader w type = d.createShader w type)
    (hstat : e.compileStatus = d.compileStatus)
    (hlen : e.shaderInfoLogLength = d.shaderInfoLogLength)
    (hlog : e.shaderInfoLog = d.shaderInfoLog) :
    CompileShader e type source w = CompileShader d type source w := by
  simp [CompileShader, glCreateShader, glGetShaderiv, glGetShaderInfoLog, hname, hstat, hlen,
    hlog]

/-- A `CompileProgram` run only depends on the three names it is handed, not on how the
context chose them. -/
theorem CompileProgram_withNames (d : Driver) (vsSource fsSource : String) (w : World) :
    CompileProgram d vsSource fsSource w =
      CompileProgram (d.withNames (d.createProgram w) (vertexName d w)
        (fragmentName d vsSource w)) vsSource fsSource w := by
  have h1 : CompileShader (d.withNames (d.createProgram w) (vertexName d w)
        (fragmentName d vsSource w)) GL_VERTEX_SHADER vsSource (glCreateProgram d w).2 =
      CompileShader d GL_VERTEX_SHADER vsSource (glCreateProgram d w).2 := by
    apply CompileShader_congr <;> simp [Driver.withNames, vertexName]
  have h2 : CompileShader (d.withNames (d.createProgram w) (vertexName d w)
        (fragmentName d vsSource w)) GL_FRAGMENT_SHADER fsSource
        (CompileShader d GL_VERTEX_SHADER vsSource (glCreateProgram d w).2).2 =
      CompileShader d GL_FRAGMENT_SHADER fsSource
        (CompileShader d GL_VERTEX_SHADER vsSource (glCreateProgram d w).2).2 := by
    apply CompileShader_congr <;>
      simp [Driver.withNames, fragmentName, GL_FRAGMENT_SHADER, GL_VERTEX_SHADER]
  have h0 : glCreateProgram (d.withNames (d.createProgram w) (vertexName d w)
        (fragmentName d vsSource w)) w = glCreateProgram d w := by
    simp [glCreateProgram, Driver.withNames]
  unfold CompileProgram
  rw [h0]
  generalize glCreateProgram d w = r0 at h1 h2 ⊢
  obtain ⟨p, w0⟩ := r0
  simp only [] at h1 h2 ⊢
  rw [h1]
  generalize CompileShader d GL_VERTEX_SHADER vsSource w0 = rv at h2 ⊢
  obtain ⟨v, wv⟩ := rv
  simp only [] at h2 ⊢
  rw [h2]
  rfl

theorem withNames_createProgram (d : Driver) (p h1 h2 : GLuint) (w0 : World) :
    (d.withNames p h1 h2).createProgram w0 = p := rfl

theorem withNames_vertex (d : Driver) (p h1 h2 : GLuint) (w0 : World) :
    (d.withNames p h1 h2).createShader w0 GL_VERTEX_SHADER = h1 := rfl

theorem withNames_fragment (d : Driver) (p h1 h2 : GLuint) (w0 : World) :
    (d.withNames p h1 h2).createShader w0 GL_FRAGMENT_SHADER = h2 := rfl

theorem withNames_compileStatus (d : Driver) (p h1 h2 : GLuint) :
    (d.withNames p h1 h2).compileStatus = d.compileStatus := rfl

theorem withNames_linkStatus (d : Driver) (p h1 h2 : GLuint) :
    (d.withNames p h1 h2).linkStatus = d.linkStatus := rfl

theorem withNames_programInfoLogLength (d : Driver) (p h1 h2 : GLuint) :
    (d.withNames p h1 h2).programInfoLogLength = d.programInfoLogLength := rfl

theorem withNames_programInfoLog (d : Driver) (p h1 h2 : GLuint) :
    (d.withNames p h1 h2).programInfoLog = d.programInfoLog := rfl

theorem withNames_shaderCallsFail (d : Driver) (p h1 h2 : GLuint) :
    shaderCallsFail (d.withNames p h1 h2) = shaderCallsFail d := rfl

theorem withNames_shaderCallsOk (d : Driver) (p h1 h2 : GLuint) :
    shaderCallsOk (d.withNames p h1 h2) = shaderCallsOk d := rfl

theorem withNames_shaderLogText (d : Driver) (p h1 h2 : GLuint) :
    shaderLogText (d.withNames p h1 h2) = shaderLogText d := rfl

theorem withNames_shaderInfoLogLength (d : Driver) (p h1 h2 : GLuint) :
    (d.withNames p h1 h2).shaderInfoLogLength = d.shaderInfoLogLength := rfl

theorem withNames_shaderBuffer (d : Driver) (p h1 h2 : GLuint) :
    shaderBuffer (d.withNames p h1 h2) = shaderBuffer d := rfl

/-- The run in which neither stage compiles. -/
theorem run_both_fail (d : Driver) (vsSource fsSource : String) (w : World)
    (p h1 h2 : GLuint)
    (hV : d.compileStatus GL_VERTEX_SHADER vsSource = 0)
    (hF : d.compileStatus GL_FRAGMENT_SHADER fsSource = 0) :
    CompileProgram (d.withNames p h1 h2) vsSource fsSource w =
      (0, { shaders := w.shaders, programs := w.programs,
            calls := w.calls ++ ([Call.glCreateProgram p] ++
              shaderCallsFail d GL_VERTEX_SHADER vsSource h1 ++
              shaderCallsFail d GL_FRAGMENT_SHADER fsSource h2 ++
              [Call.glDeleteShader 0, Call.glDeleteShader 0, Call.glDeleteProgram p]),
            cerr := (streamReport (streamReport (w.cerr, w.cerrBad) shaderPrefix
                (shaderBuffer d GL_VERTEX_SHADER vsSource)) shaderPrefix
                (shaderBuffer d GL_FRAGMENT_SHADER fsSource)).1,
            cerrBad := (streamReport (streamReport (w.cerr, w.cerrBad) shaderPrefix
                (shaderBuffer d GL_VERTEX_SHADER vsSource)) shaderPrefix
                (shaderBuffer d GL_FRAGMENT_SHADER fsSource)).2,
            accesses := w.accesses ++
              (logAccesses (d.shaderInfoLogLength GL_VERTEX_SHADER vsSource) ++
               logAccesses (d.shaderInfoLogLength GL_FRAGMENT_SHADER fsSource)) }) := by
  by_cases hp : p = 0 <;>
  simp [CompileProgram, CompileShader_fail, hV, hF, hp, glCreateProgram, glDeleteShader,
    glDeleteProgram, logAccesses, withNames_createProgram, withNames_vertex,
    withNames_fragment, withNames_compileStatus, withNames_shaderCallsFail,
    withNames_shaderBuffer, withNames_shaderInfoLogLength]

/-- The run in which only the vertex stage fails to compile. -/
theorem run_vertex_fail (d : Driver) (vsSource fsSource : String) (w : World)
    (p h1 h2 : GLuint)
    (hV : d.compileStatus GL_VERTEX_SHADER vsSource = 0)
    (hF : d.compileStatus GL_FRAGMENT_SHADER fsSource ≠ 0) :
    CompileProgram (d.withNames p h1 h2) vsSource fsSource w =
      (0, { shaders := w.shaders, programs := w.programs,
            calls := w.calls ++ ([Call.glCreateProgram p] ++
              shaderCallsFail d GL_VERTEX_SHADER vsSource h1 ++
              shaderCallsOk d GL_FRAGMENT_SHADER fsSource h2 ++
              [Call.glDeleteShader h2, Call.glDeleteShader 0, Call.glDeleteProgram p]),
            cerr := (streamReport (w.cerr, w.cerrBad) shaderPrefix
                (shaderBuffer d GL_VERTEX_SHADER vsSource)).1,
            cerrBad := (streamReport (w.cerr, w.cerrBad) shaderPrefix
                (shaderBuffer d GL_VERTEX_SHADER vsSource)).2,
            accesses := w.accesses ++
              logAccesses (d.shaderInfoLogLength GL_VERTEX_SHADER vsSource) }) := by
  by_cases hp : p = 0 <;> by_cases hh2 : h2 = 0 <;>
  simp [CompileProgram, CompileShader_fail, CompileShader_ok, hV, hF, hp, hh2,
    glCreateProgram, glDeleteShader, glDeleteProgram, logAccesses,
    withNames_createProgram, withNames_vertex,
    withNames_fragment, withNames_compileStatus, withNames_shaderCallsFail,
    withNames_shaderCallsOk, withNames_shaderBuffer, withNames_shaderInfoLogLength]

/-- The run in which only the fragment stage fails to compile. -/
theorem run_fragment_fail (d : Driver) (vsSource fsSource : String) (w : World)
    (p h1 h2 : GLuint)
    (hV : d.compileStatus GL_VERTEX_SHADER vsSource ≠ 0)
    (hF : d.compileStatus GL_FRAGMENT_SHADER fsSource = 0) :
    CompileProgram (d.withNames p h1 h2) vsSource fsSource w =
      (0, { shaders := w.shaders, programs := w.programs,
            calls := w.calls ++ ([Call.glCreateProgram p] ++
              shaderCallsOk d GL_VERTEX_SHADER vsSource h1 ++
              shaderCallsFail d GL_FRAGMENT_SHADER fsSource h2 ++
              [Call.glDeleteShader 0, Call.glDeleteShader h1, Call.glDeleteProgram p]),
            cerr := (streamReport (w.cerr, w.cerrBad) shaderPrefix
                (shaderBuffer d GL_FRAGMENT_SHADER fsSource)).1,
            cerrBad := (streamReport (w.cerr, w.cerrBad) shaderPrefix
                (shaderBuffer d GL_FRAGMENT_SHADER fsSource)).2,
            accesses := w.accesses ++
              logAccesses (d.shaderInfoLogLength GL_FRAGMENT_SHADER fsSource) }) := by
  by_cases hp : p = 0 <;> by_cases hh1 : h1 = 0 <;>
  simp [CompileProgram, CompileShader_fail, CompileShader_ok, hV, hF, hp, hh1,
    glCreateProgram, glDeleteShader, glDeleteProgram, logAccesses,
    withNames_createProgram, withNames_vertex,
    withNames_fragment, withNames_compileStatus, withNames_shaderCallsFail,
    withNames_shaderCallsOk, withNames_shaderBuffer, withNames_shaderInfoLogLength]

/-- The run in which both stages compile but one of the shader names is `0`. -/
theorem run_zero_name (d : Driver) (vsSource fsSource : String) (w : World)
    (p h1 h2 : GLuint)
    (hV : d.compileStatus GL_VERTEX_SHADER vsSource ≠ 0)
    (hF : d.compileStatus GL_FRAGMENT_SHADER fsSource ≠ 0)
    (hz : h1 = 0 ∨ h2 = 0) :
    CompileProgram (d.withNames p h1 h2) vsSource fsSource w =
      (0, { shaders := w.shaders, programs := w.programs,
            calls := w.calls ++ ([Call.glCreateProgram p] ++
              shaderCallsOk d GL_VERTEX_SHADER vsSource h1 ++
              shaderCallsOk d GL_FRAGMENT_SHADER fsSource h2 ++
              [Call.glDeleteShader h2, Call.glDeleteShader h1, Call.glDeleteProgram p]),
            cerr := w.cerr, cerrBad := w.cerrBad, accesses := w.accesses }) := by
  by_cases hp : p = 0 <;> by_cases hh1 : h1 = 0 <;> by_cases hh2 : h2 = 0 <;>
  simp [CompileProgram, CompileShader_ok, hV, hF, hp, hh1, hh2,
    glCreateProgram, glDeleteShader, glDeleteProgram,
    withNames_createProgram, withNames_vertex,
    withNames_fragment, withNames_compileStatus,
    withNames_shaderCallsOk] <;>
  simp_all

/-- The run in which both stages compile and the link fails. -/
theorem run_link_fail (d : Driver) (vsSource fsSource : String) (w : World)
    (p h1 h2 : GLuint)
    (hV : d.compileStatus GL_VERTEX_SHADER vsSource ≠ 0)
    (hF : d.compileStatus GL_FRAGMENT_SHADER fsSource ≠ 0)
    (hh1 : h1 ≠ 0) (hh2 : h2 ≠ 0) (hL : d.linkStatus vsSource fsSource = 0) :
    CompileProgram (d.withNames p h1 h2) vsSource fsSource w =
      (0, { shaders := w.shaders, programs := w.programs,
            calls := w.calls ++ ([Call.glCreateProgram p] ++
              shaderCallsOk d GL_VERTEX_SHADER vsSource h1 ++
              shaderCallsOk d GL_FRAGMENT_SHADER fsSource h2 ++
              linkCalls d vsSource fsSource p h1 h2 ++
              [Call.glGetProgramiv p GL_INFO_LOG_LENGTH
                 (d.programInfoLogLength vsSource fsSource : Int),
               Call.glGetProgramInfoLog p (d.programInfoLogLength vsSource fsSource),
               Call.glDeleteProgram p]),
            cerr := (streamReport (w.cerr, w.cerrBad) programPrefix
                (programBuffer d vsSource fsSource)).1,
            cerrBad := (streamReport (w.cerr, w.cerrBad) programPrefix
                (programBuffer d vsSource fsSource)).2,
            accesses := w.accesses ++
              logAccesses (d.programInfoLogLength vsSource fsSource) }) := by
  by_cases hp : p = 0 <;> by_cases he : h2 = h1 <;>
  simp [CompileProgram, CompileShader_ok, hV, hF, hL, hp, hh1, hh2, he,
    glCreateProgram, glDeleteShader, glAttachShader, glLinkProgram, glGetProgramiv,
    glGetProgramInfoLog, World.call, World.index, print_printCString,
    GL_INFO_LOG_LENGTH_ne_link,
    glDeleteProgram, linkCalls, programBuffer, programPrefix,
    logAccesses, vector_length, writeInfoLog_length,
    withNames_createProgram, withNames_vertex,
    withNames_fragment, withNames_compileStatus, withNames_linkStatus,
    withNames_programInfoLogLength, withNames_programInfoLog,
    withNames_shaderCallsOk]

/-- The run in which both stages compile and the link succeeds. -/
theorem run_success (d : Driver) (vsSource fsSource : String) (w : World)
    (p h1 h2 : GLuint)
    (hV : d.compileStatus GL_VERTEX_SHADER vsSource ≠ 0)
    (hF : d.compileStatus GL_FRAGMENT_SHADER fsSource ≠ 0)
    (hh1 : h1 ≠ 0) (hh2 : h2 ≠ 0) (hL : d.linkStatus vsSource fsSource ≠ 0) :
    CompileProgram (d.withNames p h1 h2) vsSource fsSource w =
      (p, { shaders := w.shaders,
            programs := if p = 0 then w.programs else p :: w.programs,
            calls := w.calls ++ ([Call.glCreateProgram p] ++
              shaderCallsOk d GL_VERTEX_SHADER vsSource h1 ++
              shaderCallsOk d GL_FRAGMENT_SHADER fsSource h2 ++
              linkCalls d vsSource fsSource p h1 h2),
            cerr := w.cerr, cerrBad := w.cerrBad, accesses := w.accesses }) := by
  by_cases hp : p = 0 <;> by_cases he : h2 = h1 <;>
  simp [CompileProgram, CompileShader_ok, hV, hF, hL, hp, hh1, hh2, he,
    glCreateProgram, glDeleteShader, glAttachShader, glLinkProgram, glGetProgramiv,
    World.call, linkCalls,
    withNames_createProgram, withNames_vertex,
    withNames_fragment, withNames_compileStatus, withNames_linkStatus,
    withNames_shaderCallsOk]

/-- With non-zero names, the value returned by `CompileProgram`. -/
theorem CompileProgram_ret (d : Driver) (vsSource fsSource : String) (w : World)
    (hnz : d.NonZero) :
    (CompileProgram d vsSource fsSource w).1 =
      if d.compileStatus GL_VERTEX_SHADER vsSource = 0 ∨
          d.compileStatus GL_FRAGMENT_SHADER fsSource = 0 ∨
          d.linkStatus vsSource fsSource = 0 then 0
      else d.createProgram w := by
  have hh1 : vertexName d w ≠ 0 := hnz.1 _ _
  have hh2 : fragmentName d vsSource w ≠ 0 := hnz.1 _ _
  rw [CompileProgram_withNames]
  generalize d.createProgram w = p
  generalize vertexName d w = h1 at hh1 ⊢
  generalize fragmentName d vsSource w = h2 at hh2 ⊢
  by_cases hV : d.compileStatus GL_VERTEX_SHADER vsSource = 0 <;>
  by_cases hF : d.compileStatus GL_FRAGMENT_SHADER fsSource = 0
  · rw [run_both_fail d vsSource fsSource w p h1 h2 hV hF]
    simp [hV]
  · rw [run_vertex_fail d vsSource fsSource w p h1 h2 hV hF]
    simp [hV]
  · rw [run_fragment_fail d vsSource fsSource w p h1 h2 hV hF]
    simp [hF]
  · by_cases hL : d.linkStatus vsSource fsSource = 0
    · rw [run_link_fail d vsSource fsSource w p h1 h2 hV hF hh1 hh2 hL]
      simp [hL]
    · rw [run_success d vsSource fsSource w p h1 h2 hV hF hh1 hh2 hL]
      simp [hV, hF, hL]

/-- On a good stream and with a positive reported length, the failure path of
`CompileShader` appends its whole message and leaves the stream good. -/
theorem CompileShader_fail_stream (d : Driver) (type : GLenum) (source : String) (w : World)
    (hs : d.compileStatus type source = 0) (hlen : 0 < d.shaderInfoLogLength type source)
    (hgood : w.cerrBad = false) :
    (CompileShader d type source w).2.cerr = w.cerr ++ shaderMessage d type source ∧
    (CompileShader d type source w).2.cerrBad = false := by
  have hb : 0 < (shaderBuffer d type source).length := by
    rw [shaderBuffer_length]
    exact hlen
  rw [CompileShader_fail d type source w hs, hgood, streamReport_good _ _ _ hb]
  exact ⟨rfl, rfl⟩

/-- With non-zero names, a good stream at entry and a positive reported length for every
failure, the error stream after `CompileProgram`. -/
theorem CompileProgram_cerr (d : Driver) (vsSource fsSource : String) (w : World)
    (hnz : d.NonZero) (hlogs : d.LogsPresent) (hgood : w.cerrBad = false) :
    (CompileProgram d vsSource fsSource w).2.cerr =
      w.cerr ++ programDiagnostics d vsSource fsSource ∧
    (CompileProgram d vsSource fsSource w).2.cerrBad = false := by
  have hh1 : vertexName d w ≠ 0 := hnz.1 _ _
  have hh2 : fragmentName d vsSource w ≠ 0 := hnz.1 _ _
  have hbV : d.compileStatus GL_VERTEX_SHADER vsSource = 0 →
      0 < (shaderBuffer d GL_VERTEX_SHADER vsSource).length := by
    intro h
    rw [shaderBuffer_length]
    exact hlogs.1 _ _ h
  have hbF : d.compileStatus GL_FRAGMENT_SHADER fsSource = 0 →
      0 < (shaderBuffer d GL_FRAGMENT_SHADER fsSource).length := by
    intro h
    rw [shaderBuffer_length]
    exact hlogs.1 _ _ h
  have hbP : d.linkStatus vsSource fsSource = 0 →
      0 < (programBuffer d vsSource fsSource).length := by
    intro h
    rw [programBuffer_length]
    exact hlogs.2 _ _ h
  rw [CompileProgram_withNames]
  generalize d.createProgram w = p
  generalize vertexName d w = h1 at hh1 ⊢
  generalize fragmentName d vsSource w = h2 at hh2 ⊢
  by_cases hV : d.compileStatus GL_VERTEX_SHADER vsSource = 0 <;>
  by_cases hF : d.compileStatus GL_FRAGMENT_SHADER fsSource = 0
  · rw [run_both_fail d vsSource fsSource w p h1 h2 hV hF, hgood,
      streamReport_good _ _ _ (hbV hV), streamReport_good _ _ _ (hbF hF)]
    simp [programDiagnostics, hV, hF, shaderMessage, shaderLogText, shaderBuffer,
      shaderPrefix]
  · rw [run_vertex_fail d vsSource fsSource w p h1 h2 hV hF, hgood,
      streamReport_good _ _ _ (hbV hV)]
    simp [programDiagnostics, hV, hF, shaderMessage, shaderLogText, shaderBuffer,
      shaderPrefix]
  · rw [run_fragment_fail d vsSource fsSource w p h1 h2 hV hF, hgood,
      streamReport_good _ _ _ (hbF hF)]
    simp [programDiagnostics, hV, hF, shaderMessage, shaderLogText, shaderBuffer,
      shaderPrefix]
  · by_cases hL : d.linkStatus vsSource fsSource = 0
    · rw [run_link_fail d vsSource fsSource w p h1 h2 hV hF hh1 hh2 hL, hgood,
        streamReport_good _ _ _ (hbP hL)]
      simp [programDiagnostics, hV, hF, hL, programMessage, programLogText, programBuffer,
        programPrefix]
    · rw [run_success d vsSource fsSource w p h1 h2 hV hF hh1 hh2 hL]
      simp [programDiagnostics, hV, hF, hL, hgood]

/-- With non-zero names, the program names in use after a `CompileProgram` run in which
both stages compile and the link succeeds, and the first call of the run. -/
theorem CompileProgram_success_world (d : Driver) (vsSource fsSource : String) (w : World)
    (hnz : d.NonZero)
    (hV : d.compileStatus GL_VERTEX_SHADER vsSource ≠ 0)
    (hF : d.compileStatus GL_FRAGMENT_SHADER fsSource ≠ 0)
    (hL : d.linkStatus vsSource fsSource ≠ 0) :
    (CompileProgram d vsSource fsSource w).1 = d.createProgram w ∧
    (CompileProgram d vsSource fsSource w).2.programs = d.createProgram w :: w.programs ∧
    (issued w (CompileProgram d vsSource fsSource w).2).head? =
      some (Call.glCreateProgram (d.createProgram w)) := by
  have hp : d.createProgram w ≠ 0 := hnz.2 w
  have hh1 : vertexName d w ≠ 0 := hnz.1 _ _
  have hh2 : fragmentName d vsSource w ≠ 0 := hnz.1 _ _
  rw [CompileProgram_withNames]
  generalize d.createProgram w = p at hp ⊢
  generalize vertexName d w = h1 at hh1 ⊢
  generalize fragmentName d vsSource w = h2 at hh2 ⊢
  rw [run_success d vsSource fsSource w p h1 h2 hV hF hh1 hh2 hL]
  simp [hp, issued]

/-- The accesses `&infoLog[0]` made by the failure path of `CompileShader`; they are within
the buffer exactly when the reported length is positive. -/
theorem CompileShader_accesses (d : Driver) (type : GLenum) (source : String) (w : World)
    (hs : d.compileStatus type source = 0) :
    (CompileShader d type source w).2.accesses =
      w.accesses ++ logAccesses (d.shaderInfoLogLength type source) ∧
    ((∀ a ∈ logAccesses (d.shaderInfoLogLength type source), InBounds a) ↔
      0 < d.shaderInfoLogLength type source) := by
  simp [CompileShader_fail, hs, logAccesses, InBounds]

/-- The accesses `&infoLog[0]` made by the link failure path of `CompileProgram`; they are
within the buffer exactly when the reported length is positive. -/
theorem CompileProgram_accesses (d : Driver) (vsSource fsSource : String) (w : World)
    (hnz : d.NonZero)
    (hV : d.compileStatus GL_VERTEX_SHADER vsSource ≠ 0)
    (hF : d.compileStatus GL_FRAGMENT_SHADER fsSource ≠ 0)
    (hL : d.linkStatus vsSource fsSource = 0) :
    (CompileProgram d vsSource fsSource w).2.accesses =
      w.accesses ++ logAccesses (d.programInfoLogLength vsSource fsSource) ∧
    ((∀ a ∈ logAccesses (d.programInfoLogLength vsSource fsSource), InBounds a) ↔
      0 < d.programInfoLogLength vsSource fsSource) := by
  have hh1 : vertexName d w ≠ 0 := hnz.1 _ _
  have hh2 : fragmentName d vsSource w ≠ 0 := hnz.1 _ _
  rw [CompileProgram_withNames]
  generalize d.createProgram w = p
  generalize vertexName d w = h1 at hh1 ⊢
  generalize fragmentName d vsSource w = h2 at hh2 ⊢
  rw [run_link_fail d vsSource fsSource w p h1 h2 hV hF hh1 hh2 hL]
  simp [logAccesses, InBounds]

/-- `CompileShader` only adds calls, all of them to OpenGL. -/
theorem CompileShader_calls (d : Driver) (type : GLenum) (source : String) (w : World) :
    ∃ t, (CompileShader d type source w).2.calls = w.calls ++ t ∧
      ∀ c ∈ t, c.isGL = true := by
  by_cases hs : d.compileStatus type source = 0
  · exact ⟨_, by rw [CompileShader_fail d type source w hs],
      by simp [shaderCallsFail, Call.isGL]⟩
  · exact ⟨_, by rw [CompileShader_ok d type source w hs],
      by simp [shaderCallsOk, Call.isGL]⟩

/-- `CompileProgram` only adds calls, all of them to OpenGL. -/
theorem CompileProgram_calls (d : Driver) (vsSource fsSource : String) (w : World) :
    ∃ t, (CompileProgram d vsSource fsSource w).2.calls = w.calls ++ t ∧
      ∀ c ∈ t, c.isGL = true := by
  rw [CompileProgram_withNames]
  generalize d.createProgram w = p
  generalize vertexName d w = h1
  generalize fragmentName d vsSource w = h2
  by_cases hV : d.compileStatus GL_VERTEX_SHADER vsSource = 0 <;>
  by_cases hF : d.compileStatus GL_FRAGMENT_SHADER fsSource = 0
  · exact ⟨_, by rw [run_both_fail d vsSource fsSource w p h1 h2 hV hF],
      by simp [shaderCallsFail, Call.isGL]⟩
  · exact ⟨_, by rw [run_vertex_fail d vsSource fsSource w p h1 h2 hV hF],
      by simp [shaderCallsFail, shaderCallsOk, Call.isGL]⟩
  · exact ⟨_, by rw [run_fragment_fail d vsSource fsSource w p h1 h2 hV hF],
      by simp [shaderCallsFail, shaderCallsOk, Call.isGL]⟩
  · by_cases hz : h1 = 0 ∨ h2 = 0
    · exact ⟨_, by rw [run_zero_name d vsSource fsSource w p h1 h2 hV hF hz],
        by simp [shaderCallsOk, Call.isGL]⟩
    · have hh1 : h1 ≠ 0 := fun h => hz (Or.inl h)
      have hh2 : h2 ≠ 0 := fun h => hz (Or.inr h)
      by_cases hL : d.linkStatus vsSource fsSource = 0
      · exact ⟨_, by rw [run_link_fail d vsSource fsSource w p h1 h2 hV hF hh1 hh2 hL],
          by simp [shaderCallsOk, linkCalls, Call.isGL]⟩
      · exact ⟨_, by rw [run_success d vsSource fsSource w p h1 h2 hV hF hh1 hh2 hL],
          by simp [shaderCallsOk, linkCalls, Call.isGL]⟩

/-- The calls of `main` from the compilation of the first program to the attachment of the
cube shaders are all OpenGL calls: what the record holds once the cube shaders exist. -/
theorem main_shader_phase (d : Driver) (w0 : World) (c : Call) (hc : c.isGL = false)
    (h0 : c ∉ w0.calls) :
    c ∉ (CompileShader d GL_FRAGMENT_SHADER fsCube
      (CompileShader d GL_VERTEX_SHADER vsCube
        (glCreateProgram d (CompileProgram d vsPlain fsPlain w0).2).2).2).2.calls := by
  obtain ⟨t1, ht1, hs1⟩ := CompileProgram_calls d vsPlain fsPlain w0
  generalize CompileProgram d vsPlain fsPlain w0 = r1 at ht1 ⊢
  obtain ⟨m1, w1⟩ := r1
  obtain ⟨t2, ht2, hs2⟩ :=
    CompileShader_calls d GL_VERTEX_SHADER vsCube (glCreateProgram d w1).2
  generalize CompileShader d GL_VERTEX_SHADER vsCube (glCreateProgram d w1).2 = r2 at ht2 ⊢
  obtain ⟨m2, w2⟩ := r2
  obtain ⟨t3, ht3, hs3⟩ := CompileShader_calls d GL_FRAGMENT_SHADER fsCube w2
  generalize CompileShader d GL_FRAGMENT_SHADER fsCube w2 = r3 at ht3 ⊢
  obtain ⟨m3, w3⟩ := r3
  simp only [] at ht1 ht2 ht3 ⊢
  have hne : ∀ t : List Call, (∀ x ∈ t, x.isGL = true) → c ∉ t := by
    intro t ht hmem
    have := ht c hmem
    rw [hc] at this
    cases this
  rw [ht3, ht2]
  simp only [glCreateProgram, ht1, List.mem_append, not_or]
  refine ⟨⟨⟨⟨h0, hne _ hs1⟩, ?_⟩, hne _ hs2⟩, hne _ hs3⟩
  intro hmem
  rw [List.mem_singleton] at hmem
  rw [hmem] at hc
  cases hc

/-- The render loop of a window that is not open: the condition is evaluated once and the
body never runs. -/
theorem renderLoop_closed (env : Env) (cube : GLuint) (fuel n : Nat) (w : World) :
    renderLoop env cube fuel n false w = some (w.call (Call.sf "isOpen")) := by
  unfold renderLoop
  simp

/-- What `main` does when both early files load, the cube program links and
`resources/texture.jpg` fails to load. -/
theorem main_texture_missing (d : Driver) (env : Env) (fuel : Nat)
    (hbg : env.loadFromFile "resources/background.jpg" = true)
    (hfont : env.loadFromFile "resources/sansation.ttf" = true)
    (hlink : d.linkStatus vsCube fsCube ≠ 0)
    (htex : env.loadFromFile "resources/texture.jpg" = false) :
    EarlyFailure (main d env fuel) "resources/texture.jpg" := by
  unfold main
  rw [hbg, hfont, htex]
  dsimp only
  generalize hw0 : (((((World.init.call (Call.createWindow env.windowCreated)).call
        (Call.sf "setVerticalSyncEnabled")).call
        (Call.loadFromFile "resources/background.jpg" true)).call
        (Call.loadFromFile "resources/sansation.ttf" true)).call (Call.sf "setActive")).call
        (Call.gl "glGetString") = w0
  have hs0 : Call.sf "isOpen" ∉ w0.calls := by
    rw [← hw0]
    simp [World.call, World.init]
  clear hw0
  have hs3 := main_shader_phase d w0 (Call.sf "isOpen") rfl hs0
  generalize CompileProgram d vsPlain fsPlain w0 = r1 at hs3 ⊢
  generalize glCreateProgram d r1.2 = r4 at hs3 ⊢
  generalize CompileShader d GL_VERTEX_SHADER vsCube r4.2 = r2 at hs3 ⊢
  generalize CompileShader d GL_FRAGMENT_SHADER fsCube r2.2 = r3 at hs3 ⊢
  simp [glGetProgramiv, hlink, EarlyFailure, World.call, World.callAll, glAttachShader,
    glLinkProgram, hs3]

/-- What `main` does when the window could not be created, every file loads and the cube
program links: it goes on to the end and returns `EXIT_SUCCESS`. -/
theorem main_without_window (d : Driver) (env : Env) (fuel : Nat)
    (hwin : env.windowCreated = false)
    (hbg : env.loadFromFile "resources/background.jpg" = true)
    (hfont : env.loadFromFile "resources/sansation.ttf" = true)
    (hlink : d.linkStatus vsCube fsCube ≠ 0)
    (htex : env.loadFromFile "resources/texture.jpg" = true) :
    ∃ w, main d env fuel = some (EXIT_SUCCESS, w) ∧
      Call.createWindow false ∈ w.calls ∧
      Call.sf "isOpen" ∈ w.calls ∧
      w.calls.getLast? = some (Call.gl "glDeleteTextures") := by
  unfold main
  rw [hbg, hfont, htex, hwin]
  dsimp only
  generalize hw0 : (((((World.init.call (Call.createWindow false)).call
        (Call.sf "setVerticalSyncEnabled")).call
        (Call.loadFromFile "resources/background.jpg" true)).call
        (Call.loadFromFile "resources/sansation.ttf" true)).call (Call.sf "setActive")).call
        (Call.gl "glGetString") = w0
  have hs0 : Call.createWindow false ∈ w0.calls := by
    rw [← hw0]
    simp [World.call, World.init]
  clear hw0
  obtain ⟨t1, ht1, -⟩ := CompileProgram_calls d vsPlain fsPlain w0
  generalize CompileProgram d vsPlain fsPlain w0 = r1 at ht1 ⊢
  obtain ⟨t2, ht2, -⟩ :=
    CompileShader_calls d GL_VERTEX_SHADER vsCube (glCreateProgram d r1.2).2
  generalize CompileShader d GL_VERTEX_SHADER vsCube (glCreateProgram d r1.2).2 = r2 at ht2 ⊢
  obtain ⟨t3, ht3, -⟩ := CompileShader_calls d GL_FRAGMENT_SHADER fsCube r2.2
  generalize CompileShader d GL_FRAGMENT_SHADER fsCube r2.2 = r3 at ht3 ⊢
  have hs3 : Call.createWindow false ∈ r3.2.calls := by
    rw [ht3, ht2]
    simp only [glCreateProgram, ht1, List.mem_append]
    exact Or.inl (Or.inl (Or.inl (Or.inl hs0)))
  simp [glGetProgramiv, hlink, World.call, World.callAll, glAttachShader,
    glLinkProgram, hs3, renderLoop_closed]

/-- What `main` does when both early files load and the cube program fails to link: it
returns `0` without trying to load `resources/texture.jpg`. -/
theorem main_link_failure (d : Driver) (env : Env) (fuel : Nat)
    (hbg : env.loadFromFile "resources/background.jpg" = true)
    (hfont : env.loadFromFile "resources/sansation.ttf" = true)
    (hlink : d.linkStatus vsCube fsCube = 0) :
    ∃ w, main d env fuel = some (0, w) ∧
      ∀ ok, Call.loadFromFile "resources/texture.jpg" ok ∉ w.calls := by
  unfold main
  rw [hbg, hfont]
  dsimp only
  generalize hw0 : (((((World.init.call (Call.createWindow env.windowCreated)).call
        (Call.sf "setVerticalSyncEnabled")).call
        (Call.loadFromFile "resources/background.jpg" true)).call
        (Call.loadFromFile "resources/sansation.ttf" true)).call (Call.sf "setActive")).call
        (Call.gl "glGetString") = w0
  have hs0 : ∀ ok, Call.loadFromFile "resources/texture.jpg" ok ∉ w0.calls := by
    intro ok
    rw [← hw0]
    simp [World.call, World.init]
  clear hw0
  have hs3 := fun ok => main_shader_phase d w0 (Call.loadFromFile "resources/texture.jpg" ok)
    rfl (hs0 ok)
  generalize CompileProgram d vsPlain fsPlain w0 = r1 at hs3 ⊢
  generalize glCreateProgram d r1.2 = r4 at hs3 ⊢
  generalize CompileShader d GL_VERTEX_SHADER vsCube r4.2 = r2 at hs3 ⊢
  generalize CompileShader d GL_FRAGMENT_SHADER fsCube r2.2 = r3 at hs3 ⊢
  simp [glGetProgramiv, hlink, World.call, World.print, World.index, glAttachShader,
    glLinkProgram, glGetProgramInfoLog, glDeleteProgram, hs3]

/-! The claims -/

/-- C1: when the context hands out a non-zero shader name, `CompileShader` returns `0`
exactly when the reported compile status is `0`, and otherwise returns the name that its own
`glCreateShader` call (the first call it makes) handed out. -/
theorem CompileShader_sentinel_iff (d : Driver) (type : GLenum) (source : String) (w : World)
    (hh : d.createShader w type ≠ 0) :
    ((CompileShader d type source w).1 = 0 ↔ d.compileStatus type source = 0) ∧
    (d.compileStatus type source ≠ 0 →
      (CompileShader d type source w).1 = d.createShader w type) ∧
    (issued w (CompileShader d type source w).2).head? =
      some (Call.glCreateShader type (d.createShader w type)) := by
  by_cases hs : d.compileStatus type source = 0
  · simp [CompileShader_fail, hs, issued, shaderCallsFail]
  · simp [CompileShader_ok, hs, hh, issued, shaderCallsOk]

/-- Instance of C1: the sample context compiling a good vertex source from scratch. -/
theorem CompileShader_sentinel_iff_witness :
    sampleDriver.createShader World.init GL_VERTEX_SHADER ≠ 0 ∧
    (((CompileShader sampleDriver GL_VERTEX_SHADER vsGood World.init).1 = 0 ↔
        sampleDriver.compileStatus GL_VERTEX_SHADER vsGood = 0) ∧
      (sampleDriver.compileStatus GL_VERTEX_SHADER vsGood ≠ 0 →
        (CompileShader sampleDriver GL_VERTEX_SHADER vsGood World.init).1 =
          sampleDriver.createShader World.init GL_VERTEX_SHADER) ∧
      (issued World.init (CompileShader sampleDriver GL_VERTEX_SHADER vsGood World.init).2).head? =
        some (Call.glCreateShader GL_VERTEX_SHADER
          (sampleDriver.createShader World.init GL_VERTEX_SHADER))) :=
  ⟨by decide,
   CompileShader_sentinel_iff sampleDriver GL_VERTEX_SHADER vsGood World.init (by decide)⟩

/-- C2: when the vertex or the fragment source fails to compile, `CompileProgram` returns `0`
and none of the calls it makes is `glAttachShader` or `glLinkProgram`. -/
theorem CompileProgram_compile_failure_no_link (d : Driver) (vsSource fsSource : String)
    (w : World)
    (hfail : d.compileStatus GL_VERTEX_SHADER vsSource = 0 ∨
      d.compileStatus GL_FRAGMENT_SHADER fsSource = 0) :
    (CompileProgram d vsSource fsSource w).1 = 0 ∧
    ∀ c ∈ issued w (CompileProgram d vsSource fsSource w).2,
      (∀ p s, c ≠ Call.glAttachShader p s) ∧ (∀ p, c ≠ Call.glLinkProgram p) := by
  rw [CompileProgram_withNames]
  generalize d.createProgram w = p
  generalize vertexName d w = h1
  generalize fragmentName d vsSource w = h2
  by_cases hV : d.compileStatus GL_VERTEX_SHADER vsSource = 0 <;>
  by_cases hF : d.compileStatus GL_FRAGMENT_SHADER fsSource = 0
  · rw [run_both_fail d vsSource fsSource w p h1 h2 hV hF]
    simp [issued, shaderCallsFail]
  · rw [run_vertex_fail d vsSource fsSource w p h1 h2 hV hF]
    simp [issued, shaderCallsFail, shaderCallsOk]
  · rw [run_fragment_fail d vsSource fsSource w p h1 h2 hV hF]
    simp [issued, shaderCallsFail, shaderCallsOk]
  · simp [hV, hF] at hfail

/-- Instance of C2: the sample context with a good vertex source and the fragment source
that has a syntax error. -/
theorem CompileProgram_compile_failure_no_link_witness :
    (sampleDriver.compileStatus GL_VERTEX_SHADER vsGood = 0 ∨
      sampleDriver.compileStatus GL_FRAGMENT_SHADER fsBad = 0) ∧
    ((CompileProgram sampleDriver vsGood fsBad World.init).1 = 0 ∧
      ∀ c ∈ issued World.init (CompileProgram sampleDriver vsGood fsBad World.init).2,
        (∀ p s, c ≠ Call.glAttachShader p s) ∧ (∀ p, c ≠ Call.glLinkProgram p)) :=
  ⟨by decide,
   CompileProgram_compile_failure_no_link sampleDriver vsGood fsBad World.init (by decide)⟩

/-- C3: when the context hands out non-zero names, `CompileProgram` returns `0` exactly when
the vertex compile status, the fragment compile status or the link status is `0`; so a
non-zero result comes from a run in which all three are non-zero. -/
theorem CompileProgram_sentinel_iff (d : Driver) (vsSource fsSource : String) (w : World)
    (hnz : d.NonZero) :
    ((CompileProgram d vsSource fsSource w).1 = 0 ↔
      (d.compileStatus GL_VERTEX_SHADER vsSource = 0 ∨
        d.compileStatus GL_FRAGMENT_SHADER fsSource = 0 ∨
        d.linkStatus vsSource fsSource = 0)) ∧
    ((CompileProgram d vsSource fsSource w).1 ≠ 0 →
      d.compileStatus GL_VERTEX_SHADER vsSource ≠ 0 ∧
        d.compileStatus GL_FRAGMENT_SHADER fsSource ≠ 0 ∧
        d.linkStatus vsSource fsSource ≠ 0) := by
  have hp : d.createProgram w ≠ 0 := hnz.2 w
  rw [CompileProgram_ret d vsSource fsSource w hnz]
  by_cases hc : d.compileStatus GL_VERTEX_SHADER vsSource = 0 ∨
      d.compileStatus GL_FRAGMENT_SHADER fsSource = 0 ∨ d.linkStatus vsSource fsSource = 0
  · simp [hc]
  · simp only [hc, if_false, iff_false, ne_eq, hp, not_false_eq_true, true_and, true_implies]
    tauto

/-- Instance of C3: the sample context with sources that compile and do not link. -/
theorem CompileProgram_sentinel_iff_witness :
    sampleDriver.NonZero ∧
    (((CompileProgram sampleDriver vsGood fsUnmatched World.init).1 = 0 ↔
      (sampleDriver.compileStatus GL_VERTEX_SHADER vsGood = 0 ∨
        sampleDriver.compileStatus GL_FRAGMENT_SHADER fsUnmatched = 0 ∨
        sampleDriver.linkStatus vsGood fsUnmatched = 0)) ∧
    ((CompileProgram sampleDriver vsGood fsUnmatched World.init).1 ≠ 0 →
      sampleDriver.compileStatus GL_VERTEX_SHADER vsGood ≠ 0 ∧
        sampleDriver.compileStatus GL_FRAGMENT_SHADER fsUnmatched ≠ 0 ∧
        sampleDriver.linkStatus vsGood fsUnmatched ≠ 0)) :=
  ⟨sampleDriver_nonZero,
   CompileProgram_sentinel_iff sampleDriver vsGood fsUnmatched World.init sampleDriver_nonZero⟩

/-- C4: when `CompileProgram` returns `0`, the shader and program names in use are the same
as before the call, the program name it created has been passed to `glDeleteProgram`, and
every shader name it created has been passed to `glDeleteShader`. -/
theorem CompileProgram_failure_releases (d : Driver) (vsSource fsSource : String) (w : World)
    (hret : (CompileProgram d vsSource fsSource w).1 = 0) :
    (CompileProgram d vsSource fsSource w).2.shaders = w.shaders ∧
    (CompileProgram d vsSource fsSource w).2.programs = w.programs ∧
    (d.createProgram w ≠ 0 →
      Call.glDeleteProgram (d.createProgram w) ∈
        issued w (CompileProgram d vsSource fsSource w).2) ∧
    (∀ type h, Call.glCreateShader type h ∈ issued w (CompileProgram d vsSource fsSource w).2 →
      Call.glDeleteShader h ∈ issued w (CompileProgram d vsSource fsSource w).2) := by
  rw [CompileProgram_withNames] at hret ⊢
  generalize d.createProgram w = p at hret ⊢
  generalize vertexName d w = h1 at hret ⊢
  generalize fragmentName d vsSource w = h2 at hret ⊢
  by_cases hV : d.compileStatus GL_VERTEX_SHADER vsSource = 0 <;>
  by_cases hF : d.compileStatus GL_FRAGMENT_SHADER fsSource = 0
  · rw [run_both_fail d vsSource fsSource w p h1 h2 hV hF]
    simp [issued, shaderCallsFail]
    tauto
  · rw [run_vertex_fail d vsSource fsSource w p h1 h2 hV hF]
    simp [issued, shaderCallsFail, shaderCallsOk]
    tauto
  · rw [run_fragment_fail d vsSource fsSource w p h1 h2 hV hF]
    simp [issued, shaderCallsFail, shaderCallsOk]
    tauto
  · by_cases hz : h1 = 0 ∨ h2 = 0
    · rw [run_zero_name d vsSource fsSource w p h1 h2 hV hF hz]
      simp [issued, shaderCallsOk]
      tauto
    · have hh1 : h1 ≠ 0 := fun h => hz (Or.inl h)
      have hh2 : h2 ≠ 0 := fun h => hz (Or.inr h)
      by_cases hL : d.linkStatus vsSource fsSource = 0
      · rw [run_link_fail d vsSource fsSource w p h1 h2 hV hF hh1 hh2 hL]
        simp [issued, shaderCallsOk, linkCalls]
        tauto
      · rw [run_success d vsSource fsSource w p h1 h2 hV hF hh1 hh2 hL] at hret ⊢
        simp only at hret
        subst hret
        simp [issued, shaderCallsOk, linkCalls]
        tauto

/-- Instance of C4: the sample context with sources that compile and do not link. -/
theorem CompileProgram_failure_releases_witness :
    (CompileProgram sampleDriver vsGood fsUnmatched World.init).1 = 0 ∧
    ((CompileProgram sampleDriver vsGood fsUnmatched World.init).2.shaders =
        World.init.shaders ∧
      (CompileProgram sampleDriver vsGood fsUnmatched World.init).2.programs =
        World.init.programs ∧
      (sampleDriver.createProgram World.init ≠ 0 →
        Call.glDeleteProgram (sampleDriver.createProgram World.init) ∈
          issued World.init (CompileProgram sampleDriver vsGood fsUnmatched World.init).2) ∧
      (∀ type h, Call.glCreateShader type h ∈
          issued World.init (CompileProgram sampleDriver vsGood fsUnmatched World.init).2 →
        Call.glDeleteShader h ∈
          issued World.init (CompileProgram sampleDriver vsGood fsUnmatched World.init).2)) :=
  ⟨by decide,
   CompileProgram_failure_releases sampleDriver vsGood fsUnmatched World.init (by decide)⟩

/-- C5: when the compile status is `0`, `CompileShader` returns `0`, the last call it makes is
`glDeleteShader` on the name its first call created, and the shader and program names in use
are the same as before the call. -/
theorem CompileShader_failure_releases (d : Driver) (type : GLenum) (source : String)
    (w : World) (hs : d.compileStatus type source = 0) :
    (CompileShader d type source w).1 = 0 ∧
    (issued w (CompileShader d type source w).2).head? =
      some (Call.glCreateShader type (d.createShader w type)) ∧
    (issued w (CompileShader d type source w).2).getLast? =
      some (Call.glDeleteShader (d.createShader w type)) ∧
    (CompileShader d type source w).2.shaders = w.shaders ∧
    (CompileShader d type source w).2.programs = w.programs := by
  simp [CompileShader_fail, hs, issued, shaderCallsFail]

/-- Instance of C5: the sample context compiling the fragment source that has a syntax
error. -/
theorem CompileShader_failure_releases_witness :
    sampleDriver.compileStatus GL_FRAGMENT_SHADER fsBad = 0 ∧
    ((CompileShader sampleDriver GL_FRAGMENT_SHADER fsBad World.init).1 = 0 ∧
      (issued World.init (CompileShader sampleDriver GL_FRAGMENT_SHADER fsBad World.init).2).head? =
        some (Call.glCreateShader GL_FRAGMENT_SHADER
          (sampleDriver.createShader World.init GL_FRAGMENT_SHADER)) ∧
      (issued World.init
          (CompileShader sampleDriver GL_FRAGMENT_SHADER fsBad World.init).2).getLast? =
        some (Call.glDeleteShader (sampleDriver.createShader World.init GL_FRAGMENT_SHADER)) ∧
      (CompileShader sampleDriver GL_FRAGMENT_SHADER fsBad World.init).2.shaders =
        World.init.shaders ∧
      (CompileShader sampleDriver GL_FRAGMENT_SHADER fsBad World.init).2.programs =
        World.init.programs) :=
  ⟨by decide,
   CompileShader_failure_releases sampleDriver GL_FRAGMENT_SHADER fsBad World.init (by decide)⟩

/-- C6, as stated, fails.  A context whose `glCreateShader` fails makes `CompileShader` and
`CompileProgram` return `0` with nothing written; and after a failure reported with info-log
length `0` the stream is bad, so the next failing `CompileShader` returns `0` with nothing
appended and a `CompileProgram` run with two failing stages writes the prefix once. -/
theorem sentinel_without_diagnostic :
    (CompileShader zeroNameDriver GL_VERTEX_SHADER vsGood World.init).1 = 0 ∧
    (CompileShader zeroNameDriver GL_VERTEX_SHADER vsGood World.init).2.cerr = [] ∧
    (CompileProgram zeroNameDriver vsGood fsGood World.init).1 = 0 ∧
    (CompileProgram zeroNameDriver vsGood fsGood World.init).2.cerr = [] ∧
    (CompileShader silentDriver GL_FRAGMENT_SHADER fsBad
      (CompileShader silentDriver GL_VERTEX_SHADER vsGood World.init).2).1 = 0 ∧
    (CompileShader silentDriver GL_FRAGMENT_SHADER fsBad
      (CompileShader silentDriver GL_VERTEX_SHADER vsGood World.init).2).2.cerr =
      (CompileShader silentDriver GL_VERTEX_SHADER vsGood World.init).2.cerr ∧
    (CompileProgram silentDriver vsGood fsBad World.init).2.cerr =
      "shader compilation failed: ".toList := by
  decide

/-- C6, as the code has it: for a context whose `glCreate…` calls succeed and whose reported
failures come with a positive info-log length, and with `std::cerr` good at entry, a `0`
from `CompileShader` comes with `"shader compilation failed: "` and the retrieved shader log
appended to the error stream, a `0` from `CompileProgram` comes with a non-empty text
appended (the messages of the failing stages, or `"program link failed: "` and the
retrieved program log when both stages compiled), a non-zero result of either leaves the
error stream as it was, the stream is still good afterwards, and the retrieved log is the
whole log of the context whenever the reported length has room for it. -/
theorem sentinel_has_diagnostic (d : Driver) (type : GLenum) (source vsSource fsSource : String)
    (w : World) (hnz : d.NonZero) (hlogs : d.LogsPresent) (hgood : w.cerrBad = false) :
    ((CompileShader d type source w).1 = 0 →
      (CompileShader d type source w).2.cerr =
        w.cerr ++ ("shader compilation failed: ".toList ++ shaderLogText d type source)) ∧
    ("shader compilation failed: ".toList ++ shaderLogText d type source ≠ []) ∧
    ((CompileShader d type source w).1 ≠ 0 → (CompileShader d type source w).2.cerr = w.cerr) ∧
    (CompileProgram d vsSource fsSource w).2.cerr =
        w.cerr ++ programDiagnostics d vsSource fsSource ∧
    ((CompileProgram d vsSource fsSource w).1 = 0 →
      programDiagnostics d vsSource fsSource ≠ []) ∧
    ((CompileProgram d vsSource fsSource w).1 ≠ 0 →
      (CompileProgram d vsSource fsSource w).2.cerr = w.cerr) ∧
    ((∀ c ∈ d.shaderInfoLog type source, c ≠ Char.ofNat 0) →
      (d.shaderInfoLog type source).length < d.shaderInfoLogLength type source →
      shaderLogText d type source = d.shaderInfoLog type source) ∧
    ((∀ c ∈ d.programInfoLog vsSource fsSource, c ≠ Char.ofNat 0) →
      (d.programInfoLog vsSource fsSource).length < d.programInfoLogLength vsSource fsSource →
      programLogText d vsSource fsSource = d.programInfoLog vsSource fsSource) ∧
    (CompileShader d type source w).2.cerrBad = false ∧
    (CompileProgram d vsSource fsSource w).2.cerrBad = false := by
  have hh : d.createShader w type ≠ 0 := hnz.1 _ _
  have hp : d.createProgram w ≠ 0 := hnz.2 w
  have hret := CompileProgram_ret d vsSource fsSource w hnz
  have hprog := CompileProgram_cerr d vsSource fsSource w hnz hlogs hgood
  refine ⟨?_, ?_, ?_, hprog.1, ?_, ?_, ?_, ?_, ?_, hprog.2⟩
  · by_cases hs : d.compileStatus type source = 0
    · intro _
      exact (CompileShader_fail_stream d type source w hs (hlogs.1 _ _ hs) hgood).1
    · simp [CompileShader_ok, hs, hh]
  · simp
  · by_cases hs : d.compileStatus type source = 0
    · simp [CompileShader_fail, hs]
    · simp [CompileShader_ok, hs, hh]
  · intro h0
    by_cases hV : d.compileStatus GL_VERTEX_SHADER vsSource = 0
    · simp [programDiagnostics, hV, shaderMessage]
    · by_cases hF : d.compileStatus GL_FRAGMENT_SHADER fsSource = 0
      · simp [programDiagnostics, hV, hF, shaderMessage]
      · by_cases hL : d.linkStatus vsSource fsSource = 0
        · simp [programDiagnostics, hV, hF, hL, programMessage]
        · rw [hret] at h0
          simp [hV, hF, hL, hp] at h0
  · intro h0
    rw [hprog.1]
    by_cases hV : d.compileStatus GL_VERTEX_SHADER vsSource = 0
    · simp [hret, hV] at h0
    · by_cases hF : d.compileStatus GL_FRAGMENT_SHADER fsSource = 0
      · simp [hret, hF] at h0
      · by_cases hL : d.linkStatus vsSource fsSource = 0
        · simp [hret, hL] at h0
        · simp [programDiagnostics, hV, hF, hL]
  · intro hnul hlen
    exact cString_writeInfoLog _ _ _ hnul hlen
  · intro hnul hlen
    exact cString_writeInfoLog _ _ _ hnul hlen
  · by_cases hs : d.compileStatus type source = 0
    · exact (CompileShader_fail_stream d type source w hs (hlogs.1 _ _ hs) hgood).2
    · simp [CompileShader_ok, hs, hgood]

/-- Instance of C6 as the code has it: the sample context fed the fragment source that has a
syntax error, from the empty starting point. -/
theorem sentinel_has_diagnostic_witness :
    sampleDriver.NonZero ∧ sampleDriver.LogsPresent ∧ World.init.cerrBad = false ∧
    (((CompileShader sampleDriver GL_FRAGMENT_SHADER fsBad World.init).1 = 0 →
      (CompileShader sampleDriver GL_FRAGMENT_SHADER fsBad World.init).2.cerr =
        World.init.cerr ++ ("shader compilation failed: ".toList ++
          shaderLogText sampleDriver GL_FRAGMENT_SHADER fsBad)) ∧
    ("shader compilation failed: ".toList ++
      shaderLogText sampleDriver GL_FRAGMENT_SHADER fsBad ≠ []) ∧
    ((CompileShader sampleDriver GL_FRAGMENT_SHADER fsBad World.init).1 ≠ 0 →
      (CompileShader sampleDriver GL_FRAGMENT_SHADER fsBad World.init).2.cerr =
        World.init.cerr) ∧
    (CompileProgram sampleDriver vsGood fsBad World.init).2.cerr =
        World.init.cerr ++ programDiagnostics sampleDriver vsGood fsBad ∧
    ((CompileProgram sampleDriver vsGood fsBad World.init).1 = 0 →
      programDiagnostics sampleDriver vsGood fsBad ≠ []) ∧
    ((CompileProgram sampleDriver vsGood fsBad World.init).1 ≠ 0 →
      (CompileProgram sampleDriver vsGood fsBad World.init).2.cerr = World.init.cerr) ∧
    ((∀ c ∈ sampleDriver.shaderInfoLog GL_FRAGMENT_SHADER fsBad, c ≠ Char.ofNat 0) →
      (sampleDriver.shaderInfoLog GL_FRAGMENT_SHADER fsBad).length <
        sampleDriver.shaderInfoLogLength GL_FRAGMENT_SHADER fsBad →
      shaderLogText sampleDriver GL_FRAGMENT_SHADER fsBad =
        sampleDriver.shaderInfoLog GL_FRAGMENT_SHADER fsBad) ∧
    ((∀ c ∈ sampleDriver.programInfoLog vsGood fsBad, c ≠ Char.ofNat 0) →
      (sampleDriver.programInfoLog vsGood fsBad).length <
        sampleDriver.programInfoLogLength vsGood fsBad →
      programLogText sampleDriver vsGood fsBad = sampleDriver.programInfoLog vsGood fsBad) ∧
    (CompileShader sampleDriver GL_FRAGMENT_SHADER fsBad World.init).2.cerrBad = false ∧
    (CompileProgram sampleDriver vsGood fsBad World.init).2.cerrBad = false) ∧
    (CompileShader sampleDriver GL_FRAGMENT_SHADER fsBad World.init).1 = 0 ∧
    (CompileProgram sampleDriver vsGood fsBad World.init).1 = 0 ∧
    (CompileShader sampleDriver GL_FRAGMENT_SHADER fsBad World.init).2.cerr =
      "shader compilation failed: error".toList :=
  ⟨sampleDriver_nonZero, sampleDriver_logsPresent, rfl,
   sentinel_has_diagnostic sampleDriver GL_FRAGMENT_SHADER fsBad vsGood fsBad World.init
      sampleDriver_nonZero sampleDriver_logsPresent rfl,
   by decide, by decide, by decide⟩

/-- C7: with non-zero names, a `CompileProgram` run in which both stages compile and the link
succeeds returns the name handed out by the `glCreateProgram` call that starts the run, and
that name is not `0` and is in use afterwards; if moreover the context never hands out a
program name that is in use, a second successful run, started right after the first or at any
later point where the first name is still in use, returns a different name. -/
theorem CompileProgram_success_handle (d : Driver)
    (vsSource fsSource vsSource2 fsSource2 : String) (w w2 : World)
    (hnz : d.NonZero) (hfresh : d.FreshPrograms)
    (hok : d.compileStatus GL_VERTEX_SHADER vsSource ≠ 0 ∧
      d.compileStatus GL_FRAGMENT_SHADER fsSource ≠ 0 ∧ d.linkStatus vsSource fsSource ≠ 0)
    (hok2 : d.compileStatus GL_VERTEX_SHADER vsSource2 ≠ 0 ∧
      d.compileStatus GL_FRAGMENT_SHADER fsSource2 ≠ 0 ∧ d.linkStatus vsSource2 fsSource2 ≠ 0)
    (hlive : (CompileProgram d vsSource fsSource w).1 ∈ w2.programs) :
    (CompileProgram d vsSource fsSource w).1 = d.createProgram w ∧
    (issued w (CompileProgram d vsSource fsSource w).2).head? =
      some (Call.glCreateProgram (CompileProgram d vsSource fsSource w).1) ∧
    (CompileProgram d vsSource fsSource w).1 ≠ 0 ∧
    (CompileProgram d vsSource fsSource w).1 ∈ (CompileProgram d vsSource fsSource w).2.programs ∧
    (CompileProgram d vsSource2 fsSource2 (CompileProgram d vsSource fsSource w).2).1 ≠
      (CompileProgram d vsSource fsSource w).1 ∧
    (CompileProgram d vsSource2 fsSource2 w2).1 ≠ (CompileProgram d vsSource fsSource w).1 := by
  obtain ⟨hret, hprog, hhead⟩ :=
    CompileProgram_success_world d vsSource fsSource w hnz hok.1 hok.2.1 hok.2.2
  have hmem : (CompileProgram d vsSource fsSource w).1 ∈
      (CompileProgram d vsSource fsSource w).2.programs := by
    rw [hprog, hret]
    exact List.mem_cons_self _ _
  have hsecond : ∀ w3 : World, (CompileProgram d vsSource fsSource w).1 ∈ w3.programs →
      (CompileProgram d vsSource2 fsSource2 w3).1 ≠ (CompileProgram d vsSource fsSource w).1 := by
    intro w3 hin heq
    have h2 := (CompileProgram_success_world d vsSource2 fsSource2 w3 hnz
      hok2.1 hok2.2.1 hok2.2.2).1
    rw [h2] at heq
    rw [← heq] at hin
    exact hfresh w3 hin
  refine ⟨hret, ?_, ?_, hmem, hsecond _ hmem, hsecond w2 hlive⟩
  · rw [hhead, hret]
  · rw [hret]
    exact hnz.2 w

/-- Instance of C7: the sample context linking the same good pair twice in a row. -/
theorem CompileProgram_success_handle_witness :
    sampleDriver.NonZero ∧ sampleDriver.FreshPrograms ∧
    (sampleDriver.compileStatus GL_VERTEX_SHADER vsGood ≠ 0 ∧
      sampleDriver.compileStatus GL_FRAGMENT_SHADER fsGood ≠ 0 ∧
      sampleDriver.linkStatus vsGood fsGood ≠ 0) ∧
    (CompileProgram sampleDriver vsGood fsGood World.init).1 ∈
      (CompileProgram sampleDriver vsGood fsGood World.init).2.programs ∧
    ((CompileProgram sampleDriver vsGood fsGood World.init).1 =
        sampleDriver.createProgram World.init ∧
      (issued World.init (CompileProgram sampleDriver vsGood fsGood World.init).2).head? =
        some (Call.glCreateProgram (CompileProgram sampleDriver vsGood fsGood World.init).1) ∧
      (CompileProgram sampleDriver vsGood fsGood World.init).1 ≠ 0 ∧
      (CompileProgram sampleDriver vsGood fsGood World.init).1 ∈
        (CompileProgram sampleDriver vsGood fsGood World.init).2.programs ∧
      (CompileProgram sampleDriver vsGood fsGood
        (CompileProgram sampleDriver vsGood fsGood World.init).2).1 ≠
        (CompileProgram sampleDriver vsGood fsGood World.init).1 ∧
      (CompileProgram sampleDriver vsGood fsGood
        (CompileProgram sampleDriver vsGood fsGood World.init).2).1 ≠
        (CompileProgram sampleDriver vsGood fsGood World.init).1) :=
  ⟨sampleDriver_nonZero, sampleDriver_fresh, by decide, by decide,
   CompileProgram_success_handle sampleDriver vsGood fsGood vsGood fsGood World.init
      (CompileProgram sampleDriver vsGood fsGood World.init).2
      sampleDriver_nonZero sampleDriver_fresh (by decide) (by decide) (by decide)⟩

/-- C8, as stated, fails: with no window, every file loading and the cube program linking,
`main` evaluates the loop condition and returns `EXIT_SUCCESS`, not `EXIT_FAILURE`. -/
theorem main_ignores_window_failure :
    noWindowEnv.windowCreated = false ∧
    EXIT_SUCCESS ≠ EXIT_FAILURE ∧
    ∃ w, main okDriver noWindowEnv 0 = some (EXIT_SUCCESS, w) ∧
      Call.createWindow false ∈ w.calls ∧
      Call.sf "isOpen" ∈ w.calls ∧
      w.calls.getLast? = some (Call.gl "glDeleteTextures") :=
  ⟨rfl, by decide, main_without_window okDriver noWindowEnv 0 rfl rfl rfl (by decide) rfl⟩

/-- C8, as the code has it: a failed load of `resources/background.jpg`, of
`resources/sansation.ttf`, or (once the cube program has linked) of `resources/texture.jpg`
makes `main` return `EXIT_FAILURE` at once, whether or not the window was created, with the
failed load as its last call and before the condition of the render loop is ever
evaluated. -/
theorem main_asset_failure_fatal (d : Driver) (env : Env) (fuel : Nat) :
    (env.loadFromFile "resources/background.jpg" = false →
      EarlyFailure (main d env fuel) "resources/background.jpg") ∧
    (env.loadFromFile "resources/background.jpg" = true →
      env.loadFromFile "resources/sansation.ttf" = false →
      EarlyFailure (main d env fuel) "resources/sansation.ttf") ∧
    (env.loadFromFile "resources/background.jpg" = true →
      env.loadFromFile "resources/sansation.ttf" = true →
      d.linkStatus vsCube fsCube ≠ 0 →
      env.loadFromFile "resources/texture.jpg" = false →
      EarlyFailure (main d env fuel) "resources/texture.jpg") := by
  refine ⟨?_, ?_, ?_⟩
  · intro hbg
    simp [main, hbg, EarlyFailure, World.call, World.init]
  · intro hbg hfont
    simp [main, hbg, hfont, EarlyFailure, World.call, World.init]
  · intro hbg hfont hlink htex
    exact main_texture_missing d env fuel hbg hfont hlink htex

/-- Instance of C8 as the code has it: each of the three files missing in turn, in a context
that compiles and links everything. -/
theorem main_asset_failure_fatal_witness :
    EarlyFailure (main okDriver noBackgroundEnv 3) "resources/background.jpg" ∧
    EarlyFailure (main okDriver noFontEnv 3) "resources/sansation.ttf" ∧
    EarlyFailure (main okDriver noTextureEnv 3) "resources/texture.jpg" :=
  ⟨(main_asset_failure_fatal okDriver noBackgroundEnv 3).1 (by decide),
   (main_asset_failure_fatal okDriver noFontEnv 3).2.1 (by decide) (by decide),
   (main_asset_failure_fatal okDriver noTextureEnv 3).2.2 (by decide) (by decide) (by decide)
     (by decide)⟩

set_option maxHeartbeats 1000000 in
/-- C9: with non-zero names, the shaders created by a `CompileProgram` run are the vertex and
the fragment shader; every non-zero name is passed to `glDeleteShader` exactly as often as
`glCreateShader` returned it, which is once for each of the two names when they differ; the
only `glDeleteProgram` call is the one on the program of the run, made once when the result
is `0` and not at all otherwise; and when both stages compile, the attach, delete and link
calls are, in this order, attach vertex, delete vertex, attach fragment, delete fragment,
link, followed by the program deletion when the link failed. -/
theorem CompileProgram_release_discipline (d : Driver) (vsSource fsSource : String) (w : World)
    (hnz : d.NonZero) :
    (issued w (CompileProgram d vsSource fsSource w).2).filter Call.isCreateShader =
      [Call.glCreateShader GL_VERTEX_SHADER (vertexName d w),
       Call.glCreateShader GL_FRAGMENT_SHADER (fragmentName d vsSource w)] ∧
    (∀ h, h ≠ 0 →
      (issued w (CompileProgram d vsSource fsSource w).2).count (Call.glDeleteShader h) =
        (issued w (CompileProgram d vsSource fsSource w).2).countP (Call.createsShader h)) ∧
    (vertexName d w ≠ fragmentName d vsSource w →
      (issued w (CompileProgram d vsSource fsSource w).2).count
          (Call.glDeleteShader (vertexName d w)) = 1 ∧
      (issued w (CompileProgram d vsSource fsSource w).2).count
          (Call.glDeleteShader (fragmentName d vsSource w)) = 1) ∧
    (issued w (CompileProgram d vsSource fsSource w).2).filter Call.isDeleteProgram =
      (if (CompileProgram d vsSource fsSource w).1 = 0
        then [Call.glDeleteProgram (d.createProgram w)] else []) ∧
    (d.compileStatus GL_VERTEX_SHADER vsSource ≠ 0 →
      d.compileStatus GL_FRAGMENT_SHADER fsSource ≠ 0 →
      (issued w (CompileProgram d vsSource fsSource w).2).filter Call.isAttachDeleteLink =
        [Call.glAttachShader (d.createProgram w) (vertexName d w),
         Call.glDeleteShader (vertexName d w),
         Call.glAttachShader (d.createProgram w) (fragmentName d vsSource w),
         Call.glDeleteShader (fragmentName d vsSource w),
         Call.glLinkProgram (d.createProgram w)] ++
        (if (CompileProgram d vsSource fsSource w).1 = 0
          then [Call.glDeleteProgram (d.createProgram w)] else [])) := by
  have hp : d.createProgram w ≠ 0 := hnz.2 w
  have hh1 : vertexName d w ≠ 0 := hnz.1 _ _
  have hh2 : fragmentName d vsSource w ≠ 0 := hnz.1 _ _
  rw [CompileProgram_withNames]
  generalize d.createProgram w = p at hp ⊢
  generalize vertexName d w = h1 at hh1 ⊢
  generalize fragmentName d vsSource w = h2 at hh2 ⊢
  have hz1 : ¬ (0 = h1) := fun e => hh1 e.symm
  have hz2 : ¬ (0 = h2) := fun e => hh2 e.symm
  have hzero : ∀ h : GLuint, h ≠ 0 → ¬ (0 = h) := fun h hh e => hh e.symm
  by_cases hV : d.compileStatus GL_VERTEX_SHADER vsSource = 0 <;>
  by_cases hF : d.compileStatus GL_FRAGMENT_SHADER fsSource = 0
  · rw [run_both_fail d vsSource fsSource w p h1 h2 hV hF]
    refine ⟨?_, ?_, ?_, ?_, ?_⟩
    · simp [issued, shaderCallsFail, Call.isCreateShader]
    · intro h hh
      simp [issued, shaderCallsFail, Call.createsShader, List.count_cons, List.countP_cons,
        hzero h hh]
    · intro hne
      have hne2 : ¬ (h2 = h1) := fun e => hne e.symm
      simp [issued, shaderCallsFail, List.count_cons, hz1, hz2, hne, hne2]
    · simp [issued, shaderCallsFail, Call.isDeleteProgram]
    · intro hV2
      exact absurd hV hV2
  · rw [run_vertex_fail d vsSource fsSource w p h1 h2 hV hF]
    refine ⟨?_, ?_, ?_, ?_, ?_⟩
    · simp [issued, shaderCallsFail, shaderCallsOk, Call.isCreateShader]
    · intro h hh
      simp [issued, shaderCallsFail, shaderCallsOk, Call.createsShader, List.count_cons,
        List.countP_cons, hzero h hh]
    · intro hne
      have hne2 : ¬ (h2 = h1) := fun e => hne e.symm
      simp [issued, shaderCallsFail, shaderCallsOk, List.count_cons, hz1, hz2, hne, hne2]
    · simp [issued, shaderCallsFail, shaderCallsOk, Call.isDeleteProgram]
    · intro hV2
      exact absurd hV hV2
  · rw [run_fragment_fail d vsSource fsSource w p h1 h2 hV hF]
    refine ⟨?_, ?_, ?_, ?_, ?_⟩
    · simp [issued, shaderCallsFail, shaderCallsOk, Call.isCreateShader]
    · intro h hh
      simp [issued, shaderCallsFail, shaderCallsOk, Call.createsShader, List.count_cons,
        List.countP_cons, hzero h hh, Nat.add_comm]
    · intro hne
      have hne2 : ¬ (h2 = h1) := fun e => hne e.symm
      simp [issued, shaderCallsFail, shaderCallsOk, List.count_cons, hz1, hz2, hne, hne2]
    · simp [issued, shaderCallsFail, shaderCallsOk, Call.isDeleteProgram]
    · intro _ hF2
      exact absurd hF hF2
  · by_cases hL : d.linkStatus vsSource fsSource = 0
    · rw [run_link_fail d vsSource fsSource w p h1 h2 hV hF hh1 hh2 hL]
      refine ⟨?_, ?_, ?_, ?_, ?_⟩
      · simp [issued, shaderCallsOk, linkCalls, Call.isCreateShader]
      · intro h hh
        simp [issued, shaderCallsOk, linkCalls, Call.createsShader, List.count_cons,
          List.countP_cons]
      · intro hne
        have hne2 : ¬ (h2 = h1) := fun e => hne e.symm
        simp [issued, shaderCallsOk, linkCalls, List.count_cons, hne, hne2]
      · simp [issued, shaderCallsOk, linkCalls, Call.isDeleteProgram]
      · intro _ _
        simp [issued, shaderCallsOk, linkCalls, Call.isAttachDeleteLink]
    · rw [run_success d vsSource fsSource w p h1 h2 hV hF hh1 hh2 hL]
      refine ⟨?_, ?_, ?_, ?_, ?_⟩
      · simp [issued, shaderCallsOk, linkCalls, Call.isCreateShader]
      · intro h hh
        simp [issued, shaderCallsOk, linkCalls, Call.createsShader, List.count_cons,
          List.countP_cons]
      · intro hne
        have hne2 : ¬ (h2 = h1) := fun e => hne e.symm
        simp [issued, shaderCallsOk, linkCalls, List.count_cons, hne, hne2]
      · simp [issued, shaderCallsOk, linkCalls, Call.isDeleteProgram, hp]
      · intro _ _
        simp [issued, shaderCallsOk, linkCalls, Call.isAttachDeleteLink, hp]

/-- Instance of C9: the sample context with a good pair of sources. -/
theorem CompileProgram_release_discipline_witness :
    sampleDriver.NonZero ∧
    (issued World.init (CompileProgram sampleDriver vsGood fsGood World.init).2).filter
        Call.isAttachDeleteLink =
      [Call.glAttachShader 1 1, Call.glDeleteShader 1, Call.glAttachShader 1 2,
       Call.glDeleteShader 2, Call.glLinkProgram 1] ∧
    (issued World.init (CompileProgram sampleDriver vsGood fsGood World.init).2).filter
        Call.isDeleteProgram = [] ∧
    (issued World.init (CompileProgram sampleDriver vsGood fsGood World.init).2).filter
        Call.isCreateShader =
      [Call.glCreateShader GL_VERTEX_SHADER (vertexName sampleDriver World.init),
       Call.glCreateShader GL_FRAGMENT_SHADER (fragmentName sampleDriver vsGood World.init)] :=
  ⟨sampleDriver_nonZero, by decide, by decide,
   (CompileProgram_release_discipline sampleDriver vsGood fsGood World.init
      sampleDriver_nonZero).1⟩

/-- C10: for a context that reports compile status `0` (respectively link status `0`) and
info-log length `0`, the buffer has no element and both `&infoLog[0]` accesses of
`CompileShader` (respectively `CompileProgram`) are outside it. -/
theorem infoLog_access_out_of_bounds :
    silentDriver.compileStatus GL_FRAGMENT_SHADER fsBad = 0 ∧
    silentDriver.shaderInfoLogLength GL_FRAGMENT_SHADER fsBad = 0 ∧
    (CompileShader silentDriver GL_FRAGMENT_SHADER fsBad World.init).2.accesses =
      [(0, 0), (0, 0)] ∧
    silentLinkDriver.linkStatus vsGood fsUnmatched = 0 ∧
    silentLinkDriver.programInfoLogLength vsGood fsUnmatched = 0 ∧
    (CompileProgram silentLinkDriver vsGood fsUnmatched World.init).2.accesses =
      [(0, 0), (0, 0)] ∧
    ¬ InBounds (0, 0) := by
  refine ⟨rfl, rfl, ?_, rfl, rfl, ?_, ?_⟩
  · decide
  · decide
  · exact Nat.lt_irrefl 0

end OpenGLExample
